import Mathlib

set_option maxRecDepth 8000
set_option linter.unusedVariables false

/- Shallow embedding of net/ipv6/ndisc.c (IPv6 Neighbour Discovery, as patched
   in this repository). Machine bytes are modelled as Nat, byte buffers as
   List Nat, and the mutable protocol state (neighbour cache, default-router
   list, per-interface configuration) as explicit records threaded through the
   handlers, which additionally return the list of collaborator requests and
   emissions they perform. The translation unit is taken with the macros the
   file itself defines (MTK_NDP_CHANGE_SRC) and the configuration options
   CONFIG_IPV6_ROUTER_PREF, CONFIG_IPV6_ROUTE_INFO, CONFIG_IPV6_OPTIMISTIC_DAD,
   CONFIG_IPV6_NDISC_NODETYPE and CONFIG_ARPD enabled; MTK_IPV6_TETHER_NDP_MODE
   and MTK_DHCPV6C_WIFI are defined nowhere in the tree, so the code they guard
   is not part of the translation unit. Helpers that live in kernel headers
   outside this repository snapshot (net/ndisc.h, net/ipv6.h, net/addrconf.h and
   the generic neighbour cache) are modelled from the specification and marked
   as such in their doc comments. -/

/-- An IPv6 address: 16 bytes in network order (struct in6_addr). -/
abbrev In6Addr := List Nat

/-- The unspecified address ::. -/
def in6addr_any : In6Addr := List.replicate 16 0

/-- The link-local all-nodes multicast address ff02::1. -/
def in6addr_linklocal_allnodes : In6Addr :=
  [0xff, 0x02, 0, 0, 0, 0, 0, 0, 0, 0, 0, 0, 0, 0, 0, 1]

/-- ipv6_addr_any: the address is the unspecified address ::. -/
def ipv6_addr_any (a : In6Addr) : Bool := a == in6addr_any

/-- ipv6_addr_is_multicast: first byte 0xff. -/
def ipv6_addr_is_multicast (a : In6Addr) : Bool := a.getD 0 0 == 0xff

/-- ipv6_addr_is_solict_mult: a solicited-node multicast address
ff02:0:0:0:0:1:ffXX:XXXX (addr32 words ff020000, 0, 1, and high byte ff). -/
def ipv6_addr_is_solict_mult (a : In6Addr) : Bool :=
  a.getD 0 0 == 0xff && a.getD 1 0 == 0x02 &&
  a.getD 2 0 == 0 && a.getD 3 0 == 0 &&
  a.getD 4 0 == 0 && a.getD 5 0 == 0 && a.getD 6 0 == 0 && a.getD 7 0 == 0 &&
  a.getD 8 0 == 0 && a.getD 9 0 == 0 && a.getD 10 0 == 0 && a.getD 11 0 == 1 &&
  a.getD 12 0 == 0xff

/-- ipv6_addr_type and IPV6_ADDR_LINKLOCAL: the address is in fe80::/10. -/
def ipv6_addr_linklocal (a : In6Addr) : Bool :=
  a.getD 0 0 == 0xfe && (a.getD 1 0) &&& 0xc0 == 0x80

/-- addrconf_addr_solict_mult: the solicited-node multicast address of a
target, ff02::1:ffXX:XXXX with the low 24 bits taken from the target. -/
def addrconf_addr_solict_mult (t : In6Addr) : In6Addr :=
  [0xff, 0x02, 0, 0, 0, 0, 0, 0, 0, 0, 0, 1, 0xff,
   t.getD 13 0, t.getD 14 0, t.getD 15 0]

/- NDP option type numbers (include/net/ndisc.h). -/

def ND_OPT_SOURCE_LL_ADDR : Nat := 1
def ND_OPT_TARGET_LL_ADDR : Nat := 2
def ND_OPT_PREFIX_INFO : Nat := 3
def ND_OPT_REDIRECT_HDR : Nat := 4
def ND_OPT_MTU : Nat := 5
def ND_OPT_ROUTE_INFO : Nat := 24
def ND_OPT_RDNSS : Nat := 25
def ND_OPT_DNSSL : Nat := 31

/-- ndisc_is_useropt: RDNSS or DNSSL option types are user options. -/
def ndisc_is_useropt (t : Nat) : Bool := t == ND_OPT_RDNSS || t == ND_OPT_DNSSL

/-- struct ndisc_options, the result of ndisc_parse_options. Each recognized
option is stored as its complete wire bytes (header included). The singleton
slots keep the first occurrence; the repeatable kinds keep every occurrence in
buffer order, which is what iterating from the stored first pointer to the
stored one-past-last pointer with ndisc_next_option / ndisc_next_useropt
yields. -/
structure NdiscOptions where
  nd_opts_src_lladdr : Option (List Nat) := none
  nd_opts_tgt_lladdr : Option (List Nat) := none
  nd_opts_mtu : Option (List Nat) := none
  nd_opts_rh : Option (List Nat) := none
  nd_opts_pi : List (List Nat) := []
  nd_opts_ri : List (List Nat) := []
  nd_useropts : List (List Nat) := []
deriving Repr, DecidableEq

/-- The switch body of ndisc_parse_options: file one parsed option (given by
its type byte and complete bytes) into the option set. Duplicated singleton
options are ignored (first instance retained); unknown types are skipped. -/
def parse_record_opt (ty : Nat) (chunk : List Nat) (acc : NdiscOptions) : NdiscOptions :=
  if ty == ND_OPT_SOURCE_LL_ADDR then
    match acc.nd_opts_src_lladdr with
    | some _ => acc
    | none => { acc with nd_opts_src_lladdr := some chunk }
  else if ty == ND_OPT_TARGET_LL_ADDR then
    match acc.nd_opts_tgt_lladdr with
    | some _ => acc
    | none => { acc with nd_opts_tgt_lladdr := some chunk }
  else if ty == ND_OPT_MTU then
    match acc.nd_opts_mtu with
    | some _ => acc
    | none => { acc with nd_opts_mtu := some chunk }
  else if ty == ND_OPT_REDIRECT_HDR then
    match acc.nd_opts_rh with
    | some _ => acc
    | none => { acc with nd_opts_rh := some chunk }
  else if ty == ND_OPT_PREFIX_INFO then
    { acc with nd_opts_pi := acc.nd_opts_pi ++ [chunk] }
  else if ty == ND_OPT_ROUTE_INFO then
    { acc with nd_opts_ri := acc.nd_opts_ri ++ [chunk] }
  else if ndisc_is_useropt ty then
    { acc with nd_useropts := acc.nd_useropts ++ [chunk] }
  else
    acc

/-- The while loop of ndisc_parse_options: the remaining buffer stands for
opt and its length for opt_len; each step reads the option header {type, len
in 8-byte units}, rejects a zero length or a length exceeding the remaining
bytes, and advances by the declared length. The fuel argument only drives the
structural recursion; it is instantiated with the buffer length, which the
loop can never exhaust because every accepted option occupies at least one
byte, so the out-of-fuel equation is unreachable. -/
def parseLoop : Nat → List Nat → NdiscOptions → Option NdiscOptions
  | _, [], acc => some acc
  | 0, _ :: _, _ => none
  | fuel + 1, opt, acc =>
    if opt.length < 2 then none
    else if opt.length < 8 * opt.getD 1 0 ∨ 8 * opt.getD 1 0 = 0 then none
    else parseLoop fuel (opt.drop (8 * opt.getD 1 0))
           (parse_record_opt (opt.getD 0 0) (opt.take (8 * opt.getD 1 0)) acc)

/-- ndisc_parse_options: parse the option area of an NDP message. Returns none
exactly where the C function returns NULL. -/
def ndisc_parse_options (opt : List Nat) : Option NdiscOptions :=
  parseLoop opt.length opt {}

/-- Modelled from the spec: the link-type-specific pad inserted before the
link-layer address inside an address option (ndisc_addr_option_pad in
include/net/ndisc.h, which is not part of this snapshot); the spec gives the
pad as 6 bytes for Infiniband (ARPHRD_INFINIBAND = 32) and 0 elsewhere. -/
def ndisc_addr_option_pad (dev_type : Nat) : Nat :=
  if dev_type == 32 then 6 else 0

/-- Modelled from the spec: NDISC_OPT_SPACE rounds 2 header bytes plus the
payload up to a multiple of 8 bytes (space_units = ceil((2 + len)/8)). -/
def NDISC_OPT_SPACE (len : Nat) : Nat := ((len + 2 + 7) / 8) * 8

/-- Modelled from the spec: ndisc_opt_addr_space, the on-wire size of a
link-layer address option for a device (include/net/ndisc.h). -/
def ndisc_opt_addr_space (addr_len dev_type : Nat) : Nat :=
  NDISC_OPT_SPACE (addr_len + ndisc_addr_option_pad dev_type)

/-- ndisc_fill_addr_option: serialize a link-layer address option. Writes
{type, space >> 3}, zeroes the pad, copies the address, and zero-fills the
remaining trailing bytes. data plays the role of the dev->addr_len bytes at
dev->dev_addr. -/
def ndisc_fill_addr_option (ty : Nat) (data : List Nat) (dev_type : Nat) : List Nat :=
  let pad := ndisc_addr_option_pad dev_type
  let space := NDISC_OPT_SPACE (data.length + pad)
  ty :: (space / 8) ::
    (List.replicate pad 0 ++ data ++
     List.replicate (space - pad - 2 - data.length) 0)

/-- Modelled from the spec: ndisc_opt_addr_data (include/net/ndisc.h) returns
the link-layer address carried by an address option when the option's declared
size matches the device's option space, and fails otherwise. -/
def ndisc_opt_addr_data (opt : List Nat) (addr_len dev_type : Nat) : Option (List Nat) :=
  if opt.length == ndisc_opt_addr_space addr_len dev_type then
    some ((opt.drop (2 + ndisc_addr_option_pad dev_type)).take addr_len)
  else none

/- Data model: device, per-interface state, neighbour cache, router list. -/

/-- HZ, the scheduler tick rate used for jiffies arithmetic (a common
configuration value; the claims do not depend on the concrete rate). -/
def HZ : Nat := 100

/-- MAX_SCHEDULE_TIMEOUT = LONG_MAX on a 64-bit build. -/
def MAX_SCHEDULE_TIMEOUT : Nat := 2 ^ 63 - 1

/-- IPV6_MIN_MTU. -/
def IPV6_MIN_MTU : Nat := 1280

/-- skb->pkt_type values relevant here. -/
inductive PktType where
  | host
  | otherhost
  | broadcast
  | multicast
  | loopback
deriving Repr, DecidableEq

/-- skb->ndisc_nodetype (CONFIG_IPV6_NDISC_NODETYPE). -/
inductive NodeType where
  | unspec
  | host
  | nodefault
  | defaultrtr
deriving Repr, DecidableEq

/-- The immutable description of the receiving net_device. The name is kept as
a character list so that the vendor strncmp on it can be modelled exactly. -/
structure NetDevice where
  ifindex : Nat
  name : List Char
  dev_type : Nat
  addr_len : Nat
  dev_addr : List Nat
  mtu : Nat
  header_ops : Bool
deriving Repr, DecidableEq

/-- Per-interface configuration (struct ipv6_devconf fields used here). -/
structure DevConf where
  forwarding : Bool
  accept_ra : Bool
  accept_ra_defrtr : Bool
  accept_ra_pinfo : Bool
  accept_ra_rtr_pref : Bool
  accept_ra_rt_info_max_plen : Nat
  proxy_ndp : Bool
  hop_limit : Nat
  mtu6 : Nat
  force_tllao : Bool
deriving Repr, DecidableEq

/-- Per-interface neighbour-discovery parameters (struct neigh_parms). -/
structure NdParms where
  retrans_time : Nat
  base_reachable_time : Nat
  reachable_time : Nat
  gc_staletime : Nat
  ucast_probes : Nat
  app_probes : Nat
  mcast_probes : Nat
  proxy_delay : Nat
deriving Repr, DecidableEq

/-- The mutable inet6_dev state of the receiving interface. -/
structure Inet6Dev where
  cnf : DevConf
  nd_parms : NdParms
  if_rs_sent : Bool
  if_ra_rcvd : Bool
  if_ra_managed : Bool
  if_ra_otherconf : Bool
  tstamp : Nat
deriving Repr, DecidableEq

/-- Neighbour reachability states (NUD_*). -/
inductive NudState where
  | nudNone
  | incomplete
  | reachable
  | stale
  | delay
  | probe
  | failed
  | noarp
  | permanent
deriving Repr, DecidableEq

/-- A neighbour cache entry on the receiving device, keyed by IPv6 address. -/
structure NeighEntry where
  key : In6Addr
  nud_state : NudState
  flags_router : Bool
  lladdr : Option (List Nat)
deriving Repr, DecidableEq

/-- A default-router list entry (the rt6_info default route produced by
rt6_add_dflt_router), keyed by {router address, interface}. The metric fields
model dst_metric_set(RTAX_HOPLIMIT / RTAX_MTU) on the route. -/
structure RouterEntry where
  addr : In6Addr
  ifindex : Nat
  pref : Nat
  expires : Nat
  metric_hoplimit : Option Nat
  metric_mtu : Option Nat
deriving Repr, DecidableEq

/-- An address configured on the receiving interface (struct inet6_ifaddr),
with the flags the handlers inspect. -/
structure IfAddr where
  addr : In6Addr
  tentative : Bool
  optimistic : Bool
deriving Repr, DecidableEq

/-- The protocol state visible to and mutated by the NDP core while processing
one packet on one interface: the neighbour cache and proxy/anycast tables of
that device, the default-router list, the interface configuration, the
address lists consulted by ipv6_get_ifaddr / ipv6_chk_addr, the global
devconf_all toggles, and the clock. -/
structure NdiscState where
  neighbors : List NeighEntry
  routers : List RouterEntry
  idev : Inet6Dev
  ifaddrs : List IfAddr
  hostAddrs : List In6Addr
  anycast : List In6Addr
  proxyNeigh : List (In6Addr × Bool)
  devconf_all_forwarding : Bool
  devconf_all_proxy_ndp : Bool
  jiffies : Nat
deriving Repr, DecidableEq

/-- The collaborator requests and packet emissions a handler performs, in
order. Emission requests carry the arguments the handler passes to the
message codec. -/
inductive Effect where
  | sendNA (daddr target : In6Addr) (router solicited override inc_opt : Bool)
  | sendNS (target daddr : In6Addr) (saddr : Option In6Addr)
  | appNS
  | proxyEnqueue
  | dadFailure (addr : In6Addr)
  | prefixRecv (optBytes : List Nat) (sllao : Bool)
  | routeInfoRecv (optBytes : List Nat)
  | userOptNotify (optBytes : List Nat)
  | linkNotify
  | icmpv6Notify
  | mtuChange (mtu : Nat)
deriving Repr, DecidableEq

/-- An inbound packet as the NDP receive entry point sees it: the IPv6 header
fields, the ICMPv6 header fields (the union of nd_msg, rs_msg, ra_msg and
rd_msg layouts), the option area bytes, and the skb metadata the handlers
read. len_short models skb->len being smaller than the fixed message header
(for RA, optlen < 0). -/
structure Packet where
  hop_limit : Nat
  saddr : In6Addr
  daddr : In6Addr
  icmp6_type : Nat
  icmp6_code : Nat
  icmp6_router : Bool := false
  icmp6_solicited : Bool := false
  icmp6_override : Bool := false
  icmp6_rt_lifetime : Nat := 0
  icmp6_router_pref : Nat := 0
  ra_cur_hop_limit : Nat := 0
  icmp6_addrconf_managed : Bool := false
  icmp6_addrconf_other : Bool := false
  ra_reachable_time : Nat := 0
  ra_retrans_timer : Nat := 0
  target : In6Addr := in6addr_any
  opts : List Nat := []
  len_short : Bool := false
  pkt_type : PktType := PktType.host
  ndisc_nodetype : NodeType := NodeType.unspec
  locally_enqueued : Bool := false
deriving Repr, DecidableEq

/- Collaborator operations. -/

/-- ipv6_get_ifaddr(net, addr, dev, strict): the interface address entry for
an address on the receiving device. -/
def ipv6_get_ifaddr (addrs : List IfAddr) (a : In6Addr) : Option IfAddr :=
  addrs.find? (fun p => p.addr == a)

/-- ipv6_chk_addr(net, addr, dev, strict): the address is configured on the
receiving device. -/
def ipv6_chk_addr_dev (addrs : List IfAddr) (a : In6Addr) : Bool :=
  (ipv6_get_ifaddr addrs a).isSome

/-- ipv6_chk_addr(net, addr, NULL, 0): the address is configured on any local
interface. -/
def ipv6_chk_addr_any (st : NdiscState) (a : In6Addr) : Bool :=
  st.hostAddrs.contains a

/-- Modelled from the spec: ipv6_accept_ra, the accept_ra master switch for RA
processing on the interface (include/net/ipv6.h is not part of this
snapshot). -/
def ipv6_accept_ra (idev : Inet6Dev) : Bool := idev.cnf.accept_ra

/-- Modelled from the spec: the generic neighbour-cache lookup by key
(neigh_lookup in net/core/neighbour.c). -/
def neigh_lookup (tbl : List NeighEntry) (k : In6Addr) : Option NeighEntry :=
  tbl.find? (fun e => e.key == k)

/-- Modelled from the spec: a freshly constructed neighbour entry (NUD_NONE,
no link-layer address, not a router). -/
def neigh_create_entry (k : In6Addr) : NeighEntry :=
  { key := k, nud_state := NudState.nudNone, flags_router := false, lladdr := none }

/-- Replace the entry with the given key in the cache. -/
def neigh_replace (tbl : List NeighEntry) (e : NeighEntry) : List NeighEntry :=
  tbl.map (fun x => if x.key == e.key then e else x)

/-- Modelled from the spec: the generic neighbour-cache update flags
(NEIGH_UPDATE_F_*) that the NDP handlers pass. -/
structure NeighUpdateFlags where
  weak_override : Bool := false
  override : Bool := false
  override_isrouter : Bool := false
  isrouter : Bool := false
deriving Repr, DecidableEq

/-- Modelled from the spec: the generic neighbour cache
update(entry, lladdr, new_state, flags) primitive (§6 of the design): it
records the new reachability state, takes the supplied link-layer address,
and, when the override-isrouter flag is set, forces the entry's ROUTER flag
to the isrouter bit. -/
def neigh_update_entry (n : NeighEntry) (lladdr : Option (List Nat))
    (ns : NudState) (f : NeighUpdateFlags) : NeighEntry :=
  { n with
    nud_state := ns
    lladdr := match lladdr with | some l => some l | none => n.lladdr
    flags_router := if f.override_isrouter then f.isrouter else n.flags_router }

/-- __neigh_lookup with creat = 1 (and dst_neigh_lookup, which creates the
entry on demand): make sure an entry for the key exists. -/
def neigh_ensure (st : NdiscState) (k : In6Addr) : NdiscState :=
  match neigh_lookup st.neighbors k with
  | some _ => st
  | none => { st with neighbors := st.neighbors ++ [neigh_create_entry k] }

/-- Update the cache entry with the given key, when present, through the
generic update primitive. -/
def neigh_update_key (st : NdiscState) (k : In6Addr) (lladdr : Option (List Nat))
    (ns : NudState) (f : NeighUpdateFlags) : NdiscState :=
  match neigh_lookup st.neighbors k with
  | some n => { st with neighbors := neigh_replace st.neighbors (neigh_update_entry n lladdr ns f) }
  | none => st

/-- Set the NTF_ROUTER flag on the entry with the given key. -/
def neigh_set_router (st : NdiscState) (k : In6Addr) : NdiscState :=
  { st with neighbors :=
      st.neighbors.map (fun x => if x.key == k then { x with flags_router := true } else x) }

/-- Modelled from the spec: rt6_get_dflt_router — the default-router entry
keyed by {router address, interface}. -/
def rt6_get_dflt_router (a : In6Addr) (ifindex : Nat) (rts : List RouterEntry) :
    Option RouterEntry :=
  rts.find? (fun r => r.addr == a && r.ifindex == ifindex)

/-- Modelled from the spec: rt6_add_dflt_router — install a default-router
entry with the given preference. -/
def rt6_add_dflt_router (a : In6Addr) (ifindex : Nat) (pref : Nat)
    (rts : List RouterEntry) : List RouterEntry :=
  { addr := a, ifindex := ifindex, pref := pref, expires := 0,
    metric_hoplimit := none, metric_mtu := none } :: rts

/-- Modelled from the spec: ip6_del_rt on the default-router entry — remove
the (first) entry with the given key. -/
def eraseFirstRouter (rts : List RouterEntry) (a : In6Addr) (ifindex : Nat) :
    List RouterEntry :=
  match rts with
  | [] => []
  | r :: rest =>
    if r.addr == a && r.ifindex == ifindex then rest
    else r :: eraseFirstRouter rest a ifindex

/-- Apply a field update to the (first) default-router entry with the given
key (rt6_set_expires, the RTF_PREF rewrite, dst_metric_set). -/
def updateFirstRouter (f : RouterEntry → RouterEntry) (rts : List RouterEntry)
    (a : In6Addr) (ifindex : Nat) : List RouterEntry :=
  match rts with
  | [] => []
  | r :: rest =>
    if r.addr == a && r.ifindex == ifindex then f r :: rest
    else r :: updateFirstRouter f rest a ifindex

/-- Modelled from the spec: neigh_rand_reach_time draws a value uniformly from
[base/2, 3·base/2]; randomness is outside this deterministic embedding and is
represented by the midpoint of that interval. No claim depends on the drawn
value. -/
def neigh_rand_reach_time (base : Nat) : Nat := base

/- Receive pipeline. -/

/-- ICMPv6 NDP message type numbers. -/
def NDISC_ROUTER_SOLICITATION : Nat := 133
def NDISC_ROUTER_ADVERTISEMENT : Nat := 134
def NDISC_NEIGHBOUR_SOLICITATION : Nat := 135
def NDISC_NEIGHBOUR_ADVERTISEMENT : Nat := 136
def NDISC_REDIRECT : Nat := 137

/-- ntohl of 4 bytes in network order. -/
def be32_of (l : List Nat) : Nat :=
  l.getD 0 0 * 0x1000000 + l.getD 1 0 * 0x10000 + l.getD 2 0 * 0x100 + l.getD 3 0

/-- The tail of ndisc_recv_ns once the target has been recognized (own
address, anycast or proxy): a DAD probe is answered with an unsolicited NA to
all-nodes; otherwise the cache entry for the source is updated or created and
a solicited NA is emitted. -/
def ndisc_recv_ns_tail (dev : NetDevice) (st : NdiscState) (pkt : Packet)
    (lladdr : Option (List Nat)) (inc ifp_present is_router : Bool) :
    NdiscState × List Effect :=
  if ipv6_addr_any pkt.saddr then
    (st, [Effect.sendNA in6addr_linklocal_allnodes pkt.target is_router false ifp_present true])
  else
    let creat := !inc || lladdr.isSome || dev.addr_len == 0
    let found := (neigh_lookup st.neighbors pkt.saddr).isSome
    if found || creat then
      let st1 := if found then st
        else { st with neighbors := st.neighbors ++ [neigh_create_entry pkt.saddr] }
      let st2 := neigh_update_key st1 pkt.saddr lladdr NudState.stale
        { weak_override := true, override := true }
      (st2, [Effect.sendNA pkt.saddr pkt.target is_router true (ifp_present && inc) inc])
    else if !dev.header_ops then
      (st, [Effect.sendNA pkt.saddr pkt.target is_router true (ifp_present && inc) inc])
    else (st, [])

/-- ndisc_recv_ns: process a received Neighbour Solicitation. -/
def ndisc_recv_ns (dev : NetDevice) (st : NdiscState) (pkt : Packet) :
    NdiscState × List Effect :=
  let dad := ipv6_addr_any pkt.saddr
  if pkt.len_short then (st, [])
  else if ipv6_addr_is_multicast pkt.target then (st, [])
  else if dad && !ipv6_addr_is_solict_mult pkt.daddr then (st, [])
  else
    match ndisc_parse_options pkt.opts with
    | none => (st, [])
    | some ndopts =>
      let lladdrStep : Option (Option (List Nat)) :=
        match ndopts.nd_opts_src_lladdr with
        | none => some none
        | some o =>
          match ndisc_opt_addr_data o dev.addr_len dev.dev_type with
          | none => none
          | some la => if dad then none else some (some la)
      match lladdrStep with
      | none => (st, [])
      | some lladdr =>
        let inc := ipv6_addr_is_multicast pkt.daddr
        match ipv6_get_ifaddr st.ifaddrs pkt.target with
        | some ifp =>
          if ifp.tentative || ifp.optimistic then
            if dad then (st, [Effect.dadFailure pkt.target])
            else if !ifp.optimistic then (st, [])
            else ndisc_recv_ns_tail dev st pkt lladdr inc true st.idev.cnf.forwarding
          else ndisc_recv_ns_tail dev st pkt lladdr inc true st.idev.cnf.forwarding
        | none =>
          let acast := st.anycast.contains pkt.target
          let proxied := st.idev.cnf.forwarding &&
            (st.devconf_all_proxy_ndp || st.idev.cnf.proxy_ndp) &&
            (st.proxyNeigh.find? (fun p => p.1 == pkt.target)).isSome
          if acast || proxied then
            if !pkt.locally_enqueued && pkt.pkt_type != PktType.host && inc &&
               st.idev.nd_parms.proxy_delay != 0 then
              (st, [Effect.proxyEnqueue])
            else
              let is_router :=
                if acast then st.idev.cnf.forwarding
                else
                  match st.proxyNeigh.find? (fun p => p.1 == pkt.target) with
                  | some p => p.2
                  | none => st.idev.cnf.forwarding
              ndisc_recv_ns_tail dev st pkt lladdr inc false is_router
          else (st, [])

/-- The link-layer address option extraction shared by the NA and RS
handlers: absent option continues with no address (some none); a present
option with a bad length drops the packet (none); otherwise the address is
extracted (some (some la)). -/
def ndisc_deopt_lladdr (opt : Option (List Nat)) (dev : NetDevice) :
    Option (Option (List Nat)) :=
  match opt with
  | none => some none
  | some o =>
    match ndisc_opt_addr_data o dev.addr_len dev.dev_type with
    | none => none
    | some la => some (some la)

/-- The own-proxy-NA check of ndisc_recv_na: the advertised link-layer
address is our own, global forwarding and proxy_ndp are enabled, and a proxy
entry exists for the target — then the NA is one we proxied ourselves and
the cache must not be updated. -/
def na_own_proxy_check (st : NdiscState) (dev : NetDevice) (target : In6Addr)
    (lladdr : Option (List Nat)) : Bool :=
  (match lladdr with
   | some la => la == dev.dev_addr.take dev.addr_len
   | none => false) &&
  st.devconf_all_forwarding && st.devconf_all_proxy_ndp &&
  (st.proxyNeigh.find? (fun p => p.1 == target)).isSome

/-- ndisc_recv_na: process a received Neighbour Advertisement. -/
def ndisc_recv_na (dev : NetDevice) (st : NdiscState) (pkt : Packet) :
    NdiscState × List Effect :=
  if pkt.len_short then (st, [])
  else if ipv6_addr_is_multicast pkt.target then (st, [])
  else if ipv6_addr_is_multicast pkt.daddr && pkt.icmp6_solicited then (st, [])
  else
    match ndisc_parse_options pkt.opts with
    | none => (st, [])
    | some ndopts =>
      match ndisc_deopt_lladdr ndopts.nd_opts_tgt_lladdr dev with
      | none => (st, [])
      | some lladdr =>
        match ipv6_get_ifaddr st.ifaddrs pkt.target with
        | some ifp =>
          if pkt.pkt_type != PktType.loopback && ifp.tentative then
            (st, [Effect.dadFailure pkt.target])
          else (st, [])
        | none =>
          match neigh_lookup st.neighbors pkt.target with
          | none => (st, [])
          | some n =>
            if n.nud_state == NudState.failed then (st, [])
            else if na_own_proxy_check st dev pkt.target lladdr then
              (st, [])
            else
              let n2 := neigh_update_entry n lladdr
                (if pkt.icmp6_solicited then NudState.reachable else NudState.stale)
                { weak_override := true, override := pkt.icmp6_override,
                  override_isrouter := true, isrouter := pkt.icmp6_router }
              let st2 := { st with neighbors := neigh_replace st.neighbors n2 }
              let st3 :=
                if n.flags_router && !n2.flags_router then
                  { st2 with routers := eraseFirstRouter st2.routers pkt.saddr dev.ifindex }
                else st2
              (st3, [])

/-- ndisc_recv_rs: process a received Router Solicitation. -/
def ndisc_recv_rs (dev : NetDevice) (st : NdiscState) (pkt : Packet) :
    NdiscState × List Effect :=
  if pkt.len_short then (st, [])
  else if !st.idev.cnf.forwarding then (st, [])
  else if ipv6_addr_any pkt.saddr then (st, [])
  else
    match ndisc_parse_options pkt.opts with
    | none => (st, [])
    | some ndopts =>
      match ndisc_deopt_lladdr ndopts.nd_opts_src_lladdr dev with
      | none => (st, [])
      | some lladdr =>
        let st1 := neigh_ensure st pkt.saddr
        (neigh_update_key st1 pkt.saddr lladdr NudState.stale
          { weak_override := true, override := true, override_isrouter := true }, [])

/-- MTK_NET vendor check in ndisc_router_discovery:
strncmp(dev->name, "ccmni", 2) == 0 compares only the first two characters of
the interface name against "cc". -/
def mtk_is_ccmni (name : List Char) : Bool := name.take 2 == ['c', 'c']

/-- The default-router region of ndisc_router_discovery (up to the
skip_defrtr label, including the hop-limit field handling which the label
skips): gated on accept_ra_defrtr and on the RA source not being a local
address. Returns whether a default-router entry is held (rt != NULL) when
the region ends. -/
def ra_defrtr (dev : NetDevice) (st : NdiscState) (pkt : Packet) :
    NdiscState × Bool :=
  if !st.idev.cnf.accept_ra_defrtr then (st, false)
  else if ipv6_chk_addr_any st pkt.saddr then (st, false)
  else
    let lifetime := pkt.icmp6_rt_lifetime
    let pref := if pkt.icmp6_router_pref == 2 || !st.idev.cnf.accept_ra_rtr_pref
      then 0 else pkt.icmp6_router_pref
    let step :=
      match rt6_get_dflt_router pkt.saddr dev.ifindex st.routers with
      | some _ =>
        let stn := neigh_ensure st pkt.saddr
        if lifetime == 0 then
          ({ stn with routers := eraseFirstRouter stn.routers pkt.saddr dev.ifindex }, false)
        else
          let rts1 := updateFirstRouter (fun r => { r with pref := pref }) stn.routers pkt.saddr dev.ifindex
          let stn2 := { stn with routers := rts1 }
          let rts2 := updateFirstRouter (fun r => { r with expires := stn2.jiffies + HZ * lifetime }) stn2.routers pkt.saddr dev.ifindex
          ({ stn2 with routers := rts2 }, true)
      | none =>
        if lifetime != 0 then
          let sta := { st with routers := rt6_add_dflt_router pkt.saddr dev.ifindex pref st.routers }
          let stb := neigh_set_router (neigh_ensure sta pkt.saddr) pkt.saddr
          let rts3 := updateFirstRouter (fun r => { r with expires := stb.jiffies + HZ * lifetime }) stb.routers pkt.saddr dev.ifindex
          ({ stb with routers := rts3 }, true)
        else (st, false)
    let st1 := step.1
    let rtHeld := step.2
    if pkt.ra_cur_hop_limit != 0 then
      let cnf2 := { st1.idev.cnf with hop_limit := pkt.ra_cur_hop_limit }
      let st2 := { st1 with idev := { st1.idev with cnf := cnf2 } }
      if rtHeld then
        let rts4 := updateFirstRouter (fun r => { r with metric_hoplimit := some pkt.ra_cur_hop_limit }) st2.routers pkt.saddr dev.ifindex
        ({ st2 with routers := rts4 }, rtHeld)
      else (st2, rtHeld)
    else (st1, rtHeld)

/-- The retrans-timer update of ndisc_router_discovery. -/
def ra_retrans_update (st : NdiscState) (pkt : Packet) : NdiscState × List Effect :=
  let rtime := pkt.ra_retrans_timer
  if rtime != 0 && rtime / 1000 < MAX_SCHEDULE_TIMEOUT / HZ then
    let r0 := rtime * HZ / 1000
    let r := if r0 < HZ / 10 then HZ / 10 else r0
    ({ st with idev := { st.idev with
         nd_parms := { st.idev.nd_parms with retrans_time := r },
         tstamp := st.jiffies } }, [Effect.linkNotify])
  else (st, [])

/-- The reachable-time update of ndisc_router_discovery. -/
def ra_reachable_update (st : NdiscState) (pkt : Packet) : NdiscState × List Effect :=
  let rtime := pkt.ra_reachable_time
  if rtime != 0 && rtime / 1000 < MAX_SCHEDULE_TIMEOUT / (3 * HZ) then
    let r0 := rtime * HZ / 1000
    let r := if r0 < HZ / 10 then HZ / 10 else r0
    if r != st.idev.nd_parms.base_reachable_time then
      ({ st with idev := { st.idev with
           nd_parms := { st.idev.nd_parms with
             base_reachable_time := r,
             gc_staletime := 3 * r,
             reachable_time := neigh_rand_reach_time r },
           tstamp := st.jiffies } }, [Effect.linkNotify])
    else (st, [])
  else (st, [])

/-- The interface-flag updates at the start of the link-parameter phase:
IF_RA_RCVD when an RS had been sent, the managed/other-config flags from the
RA, and the MTK_NET ccmni check that clears accept_ra_defrtr. -/
def ra_linkparms_idev (dev : NetDevice) (pkt : Packet) (idev : Inet6Dev) : Inet6Dev :=
  let idev1 := if idev.if_rs_sent then { idev with if_ra_rcvd := true } else idev
  let idev2 := { idev1 with if_ra_managed := pkt.icmp6_addrconf_managed,
                            if_ra_otherconf := pkt.icmp6_addrconf_other }
  if mtk_is_ccmni dev.name then
    { idev2 with cnf := { idev2.cnf with accept_ra_defrtr := false } }
  else idev2

/-- The link-parameter phase of ndisc_router_discovery (between the
accept_ra gate and the skip_linkparms label): interface flags, the MTK_NET
ccmni check, default-router handling and hop limit, retrans and reachable
times. -/
def ra_linkparms (dev : NetDevice) (st : NdiscState) (pkt : Packet) :
    NdiscState × List Effect × Bool :=
  let st1 := { st with idev := ra_linkparms_idev dev pkt st.idev }
  let step := ra_defrtr dev st1 pkt
  let step2 := ra_retrans_update step.1 pkt
  let step3 := ra_reachable_update step2.1 pkt
  (step3.1, step2.2 ++ step3.2, step.2)

/-- The option-processing phase of ndisc_router_discovery (from the
skip_linkparms label to the end): neighbour lookup/creation and update for
the RA source from the source link-layer option, then — only when RAs are
accepted on the interface — route-info, prefix-info, MTU and user options.
rtHeld says whether a default-router entry for the RA source is still held
(rt != NULL) from the link-parameter phase; the MTU metric write applies to
it. -/
def ra_opts_phase (dev : NetDevice) (pkt : Packet) (ndopts : NdiscOptions)
    (rtHeld : Bool) (st1 : NdiscState) : NdiscState × List Effect :=
  let st2 := neigh_ensure st1 pkt.saddr
  let abortOpts :=
    match ndopts.nd_opts_src_lladdr with
    | some o => (ndisc_opt_addr_data o dev.addr_len dev.dev_type).isNone
    | none => false
  if abortOpts then (st2, [])
  else
    let lladdr := ndopts.nd_opts_src_lladdr.bind
      (fun o => ndisc_opt_addr_data o dev.addr_len dev.dev_type)
    let st3 := neigh_update_key st2 pkt.saddr lladdr NudState.stale
      { weak_override := true, override := true,
        override_isrouter := true, isrouter := true }
    if !ipv6_accept_ra st3.idev then (st3, [])
    else
      let effRi :=
        if !ipv6_chk_addr_any st3 pkt.saddr &&
           st3.idev.cnf.accept_ra_rtr_pref then
          (ndopts.nd_opts_ri.filter (fun o =>
             !(pkt.ndisc_nodetype == NodeType.nodefault && o.getD 2 0 == 0) &&
             decide (o.getD 2 0 ≤ st3.idev.cnf.accept_ra_rt_info_max_plen))).map
            Effect.routeInfoRecv
        else []
      if pkt.ndisc_nodetype == NodeType.nodefault then (st3, effRi)
      else
        let effPi :=
          if st3.idev.cnf.accept_ra_pinfo then
            ndopts.nd_opts_pi.map
              (fun o => Effect.prefixRecv o ndopts.nd_opts_src_lladdr.isSome)
          else []
        let stepMtu :=
          match ndopts.nd_opts_mtu with
          | none => (st3, ([] : List Effect))
          | some o =>
            let mtu := be32_of (o.drop 4)
            if mtu < IPV6_MIN_MTU || mtu > dev.mtu then (st3, [])
            else if st3.idev.cnf.mtu6 != mtu then
              let cnfm := { st3.idev.cnf with mtu6 := mtu }
              let sta := { st3 with idev := { st3.idev with cnf := cnfm } }
              let stb :=
                if rtHeld then
                  let rtsm := updateFirstRouter (fun r => { r with metric_mtu := some mtu }) sta.routers pkt.saddr dev.ifindex
                  { sta with routers := rtsm }
                else sta
              (stb, [Effect.mtuChange mtu])
            else (st3, [])
        let effUser := ndopts.nd_useropts.map Effect.userOptNotify
        (stepMtu.1, effRi ++ effPi ++ stepMtu.2 ++ effUser)

/-- ndisc_router_discovery: process a received Router Advertisement. -/
def ndisc_router_discovery (dev : NetDevice) (st : NdiscState) (pkt : Packet) :
    NdiscState × List Effect :=
  if !ipv6_addr_linklocal pkt.saddr then (st, [])
  else if pkt.len_short then (st, [])
  else if pkt.ndisc_nodetype == NodeType.host then (st, [])
  else
    match ndisc_parse_options pkt.opts with
    | none => (st, [])
    | some ndopts =>
      let step :=
        if ipv6_accept_ra st.idev && !(pkt.ndisc_nodetype == NodeType.nodefault) then
          ra_linkparms dev st pkt
        else (st, [], false)
      let res := ra_opts_phase dev pkt ndopts step.2.2 step.1
      (res.1, step.2.1 ++ res.2)

/-- ndisc_redirect_rcv: process a received Redirect. State is never mutated;
when the message is acceptable and carries a redirect-header option the
payload is handed to the generic ICMPv6 notifier. -/
def ndisc_redirect_rcv (st : NdiscState) (pkt : Packet) : NdiscState × List Effect :=
  if pkt.ndisc_nodetype == NodeType.host || pkt.ndisc_nodetype == NodeType.nodefault then
    (st, [])
  else if !ipv6_addr_linklocal pkt.saddr then (st, [])
  else
    match ndisc_parse_options pkt.opts with
    | none => (st, [])
    | some ndopts =>
      match ndopts.nd_opts_rh with
      | none => (st, [])
      | some _ => (st, [Effect.icmpv6Notify])

/-- ndisc_rcv: the NDP receive entry point. Verifies the IPv6 hop limit and
the ICMPv6 code, clears the neighbour control block, and dispatches on the
ICMPv6 type. -/
def ndisc_rcv (dev : NetDevice) (st : NdiscState) (pkt : Packet) :
    NdiscState × List Effect :=
  if pkt.hop_limit != 255 then (st, [])
  else if pkt.icmp6_code != 0 then (st, [])
  else
    let pkt := { pkt with locally_enqueued := false }
    if pkt.icmp6_type == NDISC_NEIGHBOUR_SOLICITATION then ndisc_recv_ns dev st pkt
    else if pkt.icmp6_type == NDISC_NEIGHBOUR_ADVERTISEMENT then ndisc_recv_na dev st pkt
    else if pkt.icmp6_type == NDISC_ROUTER_SOLICITATION then ndisc_recv_rs dev st pkt
    else if pkt.icmp6_type == NDISC_ROUTER_ADVERTISEMENT then ndisc_router_discovery dev st pkt
    else if pkt.icmp6_type == NDISC_REDIRECT then ndisc_redirect_rcv st pkt
    else (st, [])

/- Emitter and message codec (outbound). -/

/-- The per-netns NDP control socket configuration. -/
structure NdiscSock where
  hop_limit : Nat
  mc_loop : Bool
deriving Repr, DecidableEq

/-- ndisc_net_init: create the control socket; np->hop_limit = 255 and
multicast loopback disabled. -/
def ndisc_net_init : NdiscSock := { hop_limit := 255, mc_loop := false }

/-- The ICMPv6 body of an outbound NDP message as the builders assemble it.
The compound literals in the C builders zero-initialize every field they do
not name, so each builder's code field is 0 by construction. -/
structure Icmp6Body where
  icmp6_type : Nat
  icmp6_code : Nat := 0
  router : Bool := false
  solicited : Bool := false
  override : Bool := false
  target : In6Addr := in6addr_any
  dest : In6Addr := in6addr_any
  opts : List Nat := []
deriving Repr, DecidableEq

/-- An outbound packet after ndisc_send_skb prepended the IPv6 header. -/
structure WirePacket where
  hop_limit : Nat
  saddr : In6Addr
  daddr : In6Addr
  body : Icmp6Body
deriving Repr, DecidableEq

/-- ndisc_send_skb: checksum the ICMPv6 payload and prepend the IPv6 header
via ip6_nd_hdr with the control socket's hop limit
(inet6_sk(sk)->hop_limit). -/
def ndisc_send_skb (sk : NdiscSock) (body : Icmp6Body)
    (daddr saddr : In6Addr) : WirePacket :=
  { hop_limit := sk.hop_limit, saddr := saddr, daddr := daddr, body := body }

/-- ndisc_send_na: build and emit a Neighbour Advertisement. ifaddrs and
force_tllao describe the device's address list and configuration; saddr_sel
is the result of the ipv6_dev_get_saddr address-selection collaborator,
consulted when the solicited address is not one of ours (none = no source
usable, silent drop). -/
def ndisc_send_na (sk : NdiscSock) (dev : NetDevice) (ifaddrs : List IfAddr)
    (force_tllao : Bool) (saddr_sel : Option In6Addr)
    (daddr solicited_addr : In6Addr)
    (router solicited override inc_opt : Bool) : Option WirePacket :=
  let step : Option (In6Addr × Bool × Bool) :=
    match ipv6_get_ifaddr ifaddrs solicited_addr with
    | some ifp =>
      some (solicited_addr, (if ifp.optimistic then false else override),
            (inc_opt || force_tllao))
    | none =>
      match saddr_sel with
      | none => none
      | some s => some (s, override, inc_opt)
  match step with
  | none => none
  | some (src, override2, inc1) =>
    let inc2 := if dev.addr_len == 0 then false else inc1
    let opts := if inc2 then
        ndisc_fill_addr_option ND_OPT_TARGET_LL_ADDR dev.dev_addr dev.dev_type
      else []
    some (ndisc_send_skb sk
      { icmp6_type := NDISC_NEIGHBOUR_ADVERTISEMENT, icmp6_code := 0,
        router := router, solicited := solicited, override := override2,
        target := solicited_addr, opts := opts }
      daddr src)

/-- ndisc_send_ns: build and emit a Neighbour Solicitation. lladdr_src is
the result of ipv6_get_lladdr, used when the caller supplies no source
address (none = no usable link-local address, silent drop). -/
def ndisc_send_ns (sk : NdiscSock) (dev : NetDevice) (lladdr_src : Option In6Addr)
    (solicit daddr : In6Addr) (saddr : Option In6Addr) : Option WirePacket :=
  let chosen := match saddr with | some s => some s | none => lladdr_src
  match chosen with
  | none => none
  | some s =>
    let inc_opt := dev.addr_len != 0 && !ipv6_addr_any s
    let opts := if inc_opt then
        ndisc_fill_addr_option ND_OPT_SOURCE_LL_ADDR dev.dev_addr dev.dev_type
      else []
    some (ndisc_send_skb sk
      { icmp6_type := NDISC_NEIGHBOUR_SOLICITATION, icmp6_code := 0,
        target := solicit, opts := opts }
      daddr s)

/-- ndisc_send_rs: build and emit a Router Solicitation. ifp is the
interface-address entry for the chosen source address; per RFC 4429 the
source link-layer option is suppressed for an optimistic source (and when
the source is not ours at all). -/
def ndisc_send_rs (sk : NdiscSock) (dev : NetDevice) (ifp : Option IfAddr)
    (saddr daddr : In6Addr) : WirePacket :=
  let send_sllao :=
    if dev.addr_len != 0 then
      match ifp with
      | some p => !p.optimistic
      | none => false
    else false
  let opts := if send_sllao then
      ndisc_fill_addr_option ND_OPT_SOURCE_LL_ADDR dev.dev_addr dev.dev_type
    else []
  ndisc_send_skb sk
    { icmp6_type := NDISC_ROUTER_SOLICITATION, icmp6_code := 0, opts := opts }
    daddr saddr

/-- ndisc_fill_redirect_hdr_option: the redirect-header option carrying the
truncated triggering packet (8-byte option header, 6 reserved bytes
zeroed). -/
def ndisc_fill_redirect_hdr_option (orig : List Nat) (rd_len : Nat) : List Nat :=
  ND_OPT_REDIRECT_HDR :: (rd_len / 8) :: (List.replicate 6 0 ++ orig.take (rd_len - 8))

/-- ndisc_send_redirect: build and emit a Redirect for a triggering packet.
lladdr_src is the ipv6_get_lladdr result on the egress device; route_gateway
says the route back to the triggering source goes via a gateway; rate_ok is
the inet_peer token-bucket verdict; neigh_found / neigh_ha describe the
neighbour entry for the redirect target (present, and its link-layer address
when the entry is NUD_VALID); orig is the triggering packet starting at its
IPv6 header. -/
def ndisc_send_redirect (sk : NdiscSock) (dev : NetDevice)
    (lladdr_src : Option In6Addr) (pkt_saddr pkt_daddr target : In6Addr)
    (route_gateway rate_ok neigh_found : Bool) (neigh_ha : Option (List Nat))
    (orig : List Nat) : Option WirePacket :=
  match lladdr_src with
  | none => none
  | some src =>
    if !(pkt_daddr == target) && !ipv6_addr_linklocal target then none
    else if route_gateway then none
    else if !rate_ok then none
    else if dev.addr_len != 0 && !neigh_found then none
    else
      let haOpts :=
        match neigh_ha with
        | some ha =>
          if dev.addr_len != 0 then
            ndisc_fill_addr_option ND_OPT_TARGET_LL_ADDR ha dev.dev_type
          else []
        | none => []
      let rd_len0 := min (IPV6_MIN_MTU - 40 - 40 - haOpts.length) (orig.length + 8)
      let rd_len := rd_len0 - rd_len0 % 8
      let opts := haOpts ++
        (if rd_len != 0 then ndisc_fill_redirect_hdr_option orig rd_len else [])
      some (ndisc_send_skb sk
        { icmp6_type := NDISC_REDIRECT, icmp6_code := 0,
          target := target, dest := pkt_daddr, opts := opts }
        pkt_saddr src)

/- Reachability driver. -/

/-- The probe ndisc_solicit decides to emit for a neighbour entry. -/
inductive SolicitAction where
  | ucastNS (target daddr : In6Addr) (saddr : Option In6Addr)
  | appProbe
  | mcastNS (target daddr : In6Addr) (saddr : Option In6Addr)
deriving Repr, DecidableEq

/-- The source-address selection of ndisc_solicit: the triggering packet's
IPv6 source when it is one of our addresses on the device
(ipv6_chk_addr(net, saddr, dev, 1)), else none (letting ndisc_send_ns pick
the link-local address). -/
def ndisc_solicit_saddr (ifaddrs : List IfAddr) (trigger : Option In6Addr) :
    Option In6Addr :=
  match trigger with
  | some s => if ipv6_chk_addr_dev ifaddrs s then some s else none
  | none => none

/-- ndisc_solicit: the outbound half of the neighbour state machine. probes
is the entry's probe counter; trigger is the IPv6 source of the queued packet
that triggered the probe (when one is attached); ifaddrs is the device's
address list consulted by ipv6_chk_addr to bias source selection. -/
def ndisc_solicit (parms : NdParms) (ifaddrs : List IfAddr)
    (target : In6Addr) (probes : Nat) (trigger : Option In6Addr) : SolicitAction :=
  if probes < parms.ucast_probes then
    SolicitAction.ucastNS target target (ndisc_solicit_saddr ifaddrs trigger)
  else if probes < parms.ucast_probes + parms.app_probes then
    SolicitAction.appProbe
  else
    SolicitAction.mcastNS target (addrconf_addr_solict_mult target)
      (ndisc_solicit_saddr ifaddrs trigger)

/- Option codec theorems (claims C2 and C8). -/

theorem parseLoop_nil (f : Nat) (acc : NdiscOptions) : parseLoop f [] acc = some acc := by
  cases f <;> rfl

theorem parseLoop_unfold_pos (f : Nat) (b : List Nat) (acc : NdiscOptions) (hb : b ≠ []) :
    parseLoop (f + 1) b acc =
      if b.length < 2 then none
      else if b.length < 8 * b.getD 1 0 ∨ 8 * b.getD 1 0 = 0 then none
      else parseLoop f (b.drop (8 * b.getD 1 0))
             (parse_record_opt (b.getD 0 0) (b.take (8 * b.getD 1 0)) acc) := by
  cases b with
  | nil => exact absurd rfl hb
  | cons x xs => rfl

theorem list_getD_take_lt (l : List Nat) (m k d : Nat) (h : m < k) :
    (l.take k).getD m d = l.getD m d := by
  simp only [List.getD_eq_getElem?_getD]
  rw [List.getElem?_take_of_lt h]

theorem parseLoop_isSome_chunks :
    ∀ (f : Nat) (b : List Nat) (acc : NdiscOptions),
      (parseLoop f b acc).isSome = true →
      ∃ cs : List (List Nat),
        (∀ c ∈ cs, 2 ≤ c.length ∧ c.length = 8 * c.getD 1 0) ∧ cs.flatten = b := by
  intro f
  induction f with
  | zero =>
    intro b acc hs
    cases b with
    | nil => exact ⟨[], by simp, by simp⟩
    | cons x xs => simp [parseLoop] at hs
  | succ f ih =>
    intro b acc hs
    cases hb : b with
    | nil => exact ⟨[], by simp, by simp⟩
    | cons x xs =>
      rw [← hb]
      rw [parseLoop_unfold_pos f b acc (by rw [hb]; exact List.cons_ne_nil x xs)] at hs
      by_cases h1 : b.length < 2
      · rw [if_pos h1] at hs
        simp at hs
      · rw [if_neg h1] at hs
        by_cases h2 : b.length < 8 * b.getD 1 0 ∨ 8 * b.getD 1 0 = 0
        · rw [if_pos h2] at hs
          simp at hs
        · rw [if_neg h2] at hs
          push_neg at h2
          obtain ⟨h2a, h2b⟩ := h2
          have hg1 : 1 ≤ b.getD 1 0 := by omega
          obtain ⟨cs, hcs, hjoin⟩ := ih (b.drop (8 * b.getD 1 0)) _ hs
          refine ⟨b.take (8 * b.getD 1 0) :: cs, ?_, ?_⟩
          · intro c hc
            rcases List.mem_cons.mp hc with rfl | hc
            · have hlt : (b.take (8 * b.getD 1 0)).length = 8 * b.getD 1 0 := by
                simp only [List.length_take]
                omega
              have hgd : (b.take (8 * b.getD 1 0)).getD 1 0 = b.getD 1 0 :=
                list_getD_take_lt b 1 (8 * b.getD 1 0) 0 (by omega)
              constructor
              · omega
              · rw [hlt, hgd]
            · exact hcs c hc
          · show b.take (8 * b.getD 1 0) ++ cs.flatten = b
            rw [hjoin]
            exact List.take_append_drop _ b

theorem chunks_parseLoop_isSome :
    ∀ (cs : List (List Nat)) (f : Nat) (acc : NdiscOptions),
      cs.flatten.length ≤ f →
      (∀ c ∈ cs, 2 ≤ c.length ∧ c.length = 8 * c.getD 1 0) →
      (parseLoop f cs.flatten acc).isSome = true := by
  intro cs
  induction cs with
  | nil =>
    intro f acc _ _
    rw [show (List.flatten ([] : List (List Nat))) = [] from rfl, parseLoop_nil]
    rfl
  | cons c cs ih =>
    intro f acc hf hcs
    obtain ⟨hc2, hcl⟩ := hcs c (List.mem_cons_self c cs)
    have hjc : (c :: cs).flatten = c ++ cs.flatten := by simp [List.flatten]
    have hget : (c ++ cs.flatten).getD 1 0 = c.getD 1 0 :=
      List.getD_append _ _ _ _ (by omega)
    have hlena : (c ++ cs.flatten).length = c.length + cs.flatten.length :=
      List.length_append _ _
    rw [hjc] at hf ⊢
    cases f with
    | zero =>
      exfalso
      omega
    | succ f =>
      have hne : c ++ cs.flatten ≠ [] := by
        intro hnil
        rw [hnil] at hlena
        simp at hlena
        omega
      rw [parseLoop_unfold_pos f _ acc hne]
      rw [if_neg (by omega)]
      rw [if_neg (by rw [hget]; omega)]
      rw [hget, ← hcl, List.drop_left]
      exact ih f _ (by omega) (fun d hd => hcs d (List.mem_cons_of_mem c hd))

/-- Claim C2: ndisc_parse_options either consumes the entire option area
exactly and returns a parsed option set, or returns NULL: it succeeds exactly
when the buffer splits into consecutive whole options, each at least one
8-byte unit long with its declared length (len_units·8, the second header
byte times 8) equal to the bytes it occupies; equivalently it fails exactly
when an option's declared length is zero or exceeds the remaining bytes or
the remaining bytes cannot hold an option header, and there is no partial
acceptance. -/
theorem c2_parse_exact_consumption (b : List Nat) :
    (ndisc_parse_options b).isSome = true ↔
      ∃ cs : List (List Nat),
        (∀ c ∈ cs, 2 ≤ c.length ∧ c.length = 8 * c.getD 1 0) ∧ cs.flatten = b := by
  constructor
  · intro h
    exact parseLoop_isSome_chunks b.length b {} h
  · rintro ⟨cs, hcs, rfl⟩
    exact chunks_parseLoop_isSome cs cs.flatten.length {} le_rfl hcs

theorem parse_fill_single (ty : Nat) (data : List Nat) (dt : Nat) :
    ndisc_parse_options (ndisc_fill_addr_option ty data dt) =
      some (parse_record_opt ty (ndisc_fill_addr_option ty data dt) {}) := by
  generalize hpad : ndisc_addr_option_pad dt = pad
  have hfill : ndisc_fill_addr_option ty data dt =
      ty :: (NDISC_OPT_SPACE (data.length + pad) / 8) ::
        (List.replicate pad 0 ++ data ++
         List.replicate (NDISC_OPT_SPACE (data.length + pad) - pad - 2 - data.length) 0) := by
    simp only [ndisc_fill_addr_option, hpad]
  have hdm := Nat.div_add_mod (data.length + pad + 9) 8
  have hml : (data.length + pad + 9) % 8 < 8 := Nat.mod_lt _ (by norm_num)
  have hspace_def : NDISC_OPT_SPACE (data.length + pad) =
      ((data.length + pad + 9) / 8) * 8 := by
    unfold NDISC_OPT_SPACE
    have h9 : data.length + pad + 2 + 7 = data.length + pad + 9 := by omega
    rw [h9]
  have hsq : NDISC_OPT_SPACE (data.length + pad) / 8 = (data.length + pad + 9) / 8 := by
    rw [hspace_def]
    exact Nat.mul_div_cancel _ (by norm_num)
  have hsp_ge : data.length + pad + 2 ≤ NDISC_OPT_SPACE (data.length + pad) := by
    rw [hspace_def]; omega
  have hsp8 : 8 ≤ NDISC_OPT_SPACE (data.length + pad) := by
    rw [hspace_def]; omega
  have hblen : (ndisc_fill_addr_option ty data dt).length =
      NDISC_OPT_SPACE (data.length + pad) := by
    rw [hfill]
    simp only [List.length_cons, List.length_append, List.length_replicate]
    omega
  have hget1 : (ndisc_fill_addr_option ty data dt).getD 1 0 =
      NDISC_OPT_SPACE (data.length + pad) / 8 := by
    rw [hfill]
    rfl
  have hget0 : (ndisc_fill_addr_option ty data dt).getD 0 0 = ty := by
    rw [hfill]
    rfl
  have h8q : 8 * (NDISC_OPT_SPACE (data.length + pad) / 8) =
      NDISC_OPT_SPACE (data.length + pad) := by
    rw [hsq, hspace_def]; omega
  have hm : (ndisc_fill_addr_option ty data dt).length =
      ((ndisc_fill_addr_option ty data dt).length - 1) + 1 := by omega
  rw [ndisc_parse_options, hm]
  rw [parseLoop_unfold_pos _ _ _ (by rw [hfill]; exact List.cons_ne_nil _ _)]
  rw [hget0, hget1, h8q]
  rw [if_neg (by omega), if_neg (by rw [hblen]; omega)]
  rw [← hblen, List.drop_length, List.take_length, parseLoop_nil]

/-- Claim C8: option serialization round-trips through parsing: a source or
target link-layer address option written by ndisc_fill_addr_option parses
successfully and the parsed option set holds exactly that option in the
corresponding singleton slot (and nothing else). -/
theorem c8_fill_addr_option_roundtrip (data : List Nat) (dt : Nat) :
    (ndisc_parse_options (ndisc_fill_addr_option ND_OPT_SOURCE_LL_ADDR data dt) =
      some { nd_opts_src_lladdr := some (ndisc_fill_addr_option ND_OPT_SOURCE_LL_ADDR data dt) }) ∧
    (ndisc_parse_options (ndisc_fill_addr_option ND_OPT_TARGET_LL_ADDR data dt) =
      some { nd_opts_tgt_lladdr := some (ndisc_fill_addr_option ND_OPT_TARGET_LL_ADDR data dt) }) := by
  constructor
  · rw [parse_fill_single]
    rfl
  · rw [parse_fill_single]
    rfl

/- Concrete fixtures used by the witnesses and counterexamples. -/

def dev0 : NetDevice :=
  { ifindex := 2, name := ['e', 't', 'h', '0'], dev_type := 1, addr_len := 6,
    dev_addr := [0x52, 0x54, 0, 0x12, 0x34, 0x56], mtu := 1500, header_ops := true }

def devCc : NetDevice :=
  { dev0 with ifindex := 3, name := ['c', 'c', 'm', 'n', 'i', '0'] }

def cnf0 : DevConf :=
  { forwarding := false, accept_ra := true, accept_ra_defrtr := true,
    accept_ra_pinfo := true, accept_ra_rtr_pref := true,
    accept_ra_rt_info_max_plen := 0, proxy_ndp := false, hop_limit := 64,
    mtu6 := 1500, force_tllao := false }

def parms0 : NdParms :=
  { retrans_time := 100, base_reachable_time := 3000, reachable_time := 3000,
    gc_staletime := 6000, ucast_probes := 3, app_probes := 0, mcast_probes := 3,
    proxy_delay := 80 }

def idev0 : Inet6Dev :=
  { cnf := cnf0, nd_parms := parms0, if_rs_sent := false, if_ra_rcvd := false,
    if_ra_managed := false, if_ra_otherconf := false, tstamp := 0 }

def st0 : NdiscState :=
  { neighbors := [], routers := [], idev := idev0, ifaddrs := [], hostAddrs := [],
    anycast := [], proxyNeigh := [], devconf_all_forwarding := false,
    devconf_all_proxy_ndp := false, jiffies := 5000 }

/-- fe80::1. -/
def addrLL1 : In6Addr := [0xfe, 0x80, 0, 0, 0, 0, 0, 0, 0, 0, 0, 0, 0, 0, 0, 1]

/-- 2001:db8::1. -/
def addrG1 : In6Addr := [0x20, 0x01, 0x0d, 0xb8, 0, 0, 0, 0, 0, 0, 0, 0, 0, 0, 0, 1]

/- Claim C1. -/

/-- Claim C1: every inbound NDP packet whose IPv6 hop limit is not 255 or
whose ICMPv6 code is not 0 is dropped by ndisc_rcv before dispatch: the
protocol state (neighbour cache, router list, interface configuration) is
returned unchanged and no collaborator request, notification or emission is
made. -/
theorem c1_rcv_hoplimit_code_gate (dev : NetDevice) (st : NdiscState) (pkt : Packet)
    (h : pkt.hop_limit ≠ 255 ∨ pkt.icmp6_code ≠ 0) :
    ndisc_rcv dev st pkt = (st, []) := by
  unfold ndisc_rcv
  by_cases h1 : pkt.hop_limit = 255
  · have h2 : pkt.icmp6_code ≠ 0 := by
      rcases h with h | h
      · exact absurd h1 h
      · exact h
    simp [h1, h2]
  · simp [h1]

def pktBadHop : Packet :=
  { hop_limit := 64, saddr := addrLL1, daddr := in6addr_linklocal_allnodes,
    icmp6_type := NDISC_NEIGHBOUR_SOLICITATION, icmp6_code := 0, target := addrG1 }

theorem c1_rcv_hoplimit_code_gate_witness : ndisc_rcv dev0 st0 pktBadHop = (st0, []) :=
  c1_rcv_hoplimit_code_gate dev0 st0 pktBadHop (Or.inl (by decide))

/- Claim C9. -/

/-- Claim C9: when the reachability driver runs for an entry with probe count
probes, it sends a unicast NS addressed to the entry's target while
probes < ucast_probes, with the source address taken from our addresses when
it matches the triggering packet's source; while
probes < ucast_probes + app_probes it only notifies the user-space ARP
daemon; otherwise it sends a multicast NS to the target's solicited-node
multicast address. -/
theorem c9_solicit_probe_selection (parms : NdParms) (ifaddrs : List IfAddr)
    (target : In6Addr) (probes : Nat) (trigger : Option In6Addr) :
    (probes < parms.ucast_probes →
      ndisc_solicit parms ifaddrs target probes trigger =
        SolicitAction.ucastNS target target (ndisc_solicit_saddr ifaddrs trigger)) ∧
    (parms.ucast_probes ≤ probes → probes < parms.ucast_probes + parms.app_probes →
      ndisc_solicit parms ifaddrs target probes trigger = SolicitAction.appProbe) ∧
    (parms.ucast_probes + parms.app_probes ≤ probes →
      ndisc_solicit parms ifaddrs target probes trigger =
        SolicitAction.mcastNS target (addrconf_addr_solict_mult target)
          (ndisc_solicit_saddr ifaddrs trigger)) := by
  unfold ndisc_solicit
  refine ⟨fun h => ?_, fun ha hb => ?_, fun h => ?_⟩
  · rw [if_pos h]
  · rw [if_neg (by omega), if_pos hb]
  · rw [if_neg (by omega), if_neg (by omega)]

theorem c9_solicit_probe_selection_witness :
    (ndisc_solicit parms0 [] addrG1 1 none =
      SolicitAction.ucastNS addrG1 addrG1 (ndisc_solicit_saddr [] none)) ∧
    (ndisc_solicit parms0 [] addrG1 5 none =
      SolicitAction.mcastNS addrG1 (addrconf_addr_solict_mult addrG1)
        (ndisc_solicit_saddr [] none)) :=
  ⟨(c9_solicit_probe_selection parms0 [] addrG1 1 none).1 (by decide),
   (c9_solicit_probe_selection parms0 [] addrG1 5 none).2.2 (by decide)⟩

/- Claim C3. -/

/-- Claim C3: a received Neighbour Solicitation whose IPv6 source is the
unspecified address (a DAD probe) is dropped by ndisc_recv_ns — state
unchanged and nothing emitted — whenever its destination is not a
solicited-node multicast address or its (successfully parsed) options carry
a source link-layer address option. -/
theorem c3_dad_ns_drop (dev : NetDevice) (st : NdiscState) (pkt : Packet)
    (hdad : ipv6_addr_any pkt.saddr = true)
    (h : ipv6_addr_is_solict_mult pkt.daddr = false ∨
         ∀ nd, ndisc_parse_options pkt.opts = some nd →
           nd.nd_opts_src_lladdr.isSome = true) :
    ndisc_recv_ns dev st pkt = (st, []) := by
  unfold ndisc_recv_ns
  simp only [hdad]
  by_cases hshort : pkt.len_short
  · simp [hshort]
  · simp only [hshort]
    by_cases hmt : ipv6_addr_is_multicast pkt.target
    · simp [hmt]
    · simp only [hmt]
      rcases h with h | h
      · simp [h]
      · by_cases hsm : ipv6_addr_is_solict_mult pkt.daddr
        · simp only [hsm, Bool.not_true, Bool.and_false, Bool.false_eq_true,
            if_false, Bool.true_and]
          cases hp : ndisc_parse_options pkt.opts with
          | none => simp
          | some nd =>
            have hsrc := h nd hp
            obtain ⟨o, ho⟩ := Option.isSome_iff_exists.mp hsrc
            simp only [ho]
            cases hd : ndisc_opt_addr_data o dev.addr_len dev.dev_type with
            | none => simp
            | some la => simp
        · simp [hsm]

def pktDadBad : Packet :=
  { hop_limit := 255, saddr := in6addr_any, daddr := in6addr_linklocal_allnodes,
    icmp6_type := NDISC_NEIGHBOUR_SOLICITATION, icmp6_code := 0, target := addrG1 }

theorem c3_dad_ns_drop_witness : ndisc_recv_ns dev0 st0 pktDadBad = (st0, []) :=
  c3_dad_ns_drop dev0 st0 pktDadBad (by decide) (Or.inl (by decide))

/- Projection facts about the state helpers, used to trace which parts of
the state each phase can touch. -/

theorem neigh_ensure_routers (st : NdiscState) (k : In6Addr) :
    (neigh_ensure st k).routers = st.routers := by
  unfold neigh_ensure
  cases neigh_lookup st.neighbors k <;> rfl

theorem neigh_ensure_idev (st : NdiscState) (k : In6Addr) :
    (neigh_ensure st k).idev = st.idev := by
  unfold neigh_ensure
  cases neigh_lookup st.neighbors k <;> rfl

theorem neigh_ensure_hostAddrs (st : NdiscState) (k : In6Addr) :
    (neigh_ensure st k).hostAddrs = st.hostAddrs := by
  unfold neigh_ensure
  cases neigh_lookup st.neighbors k <;> rfl

theorem neigh_ensure_jiffies (st : NdiscState) (k : In6Addr) :
    (neigh_ensure st k).jiffies = st.jiffies := by
  unfold neigh_ensure
  cases neigh_lookup st.neighbors k <;> rfl

theorem neigh_update_key_routers (st : NdiscState) (k : In6Addr)
    (l : Option (List Nat)) (ns : NudState) (f : NeighUpdateFlags) :
    (neigh_update_key st k l ns f).routers = st.routers := by
  unfold neigh_update_key
  cases neigh_lookup st.neighbors k <;> rfl

theorem neigh_update_key_idev (st : NdiscState) (k : In6Addr)
    (l : Option (List Nat)) (ns : NudState) (f : NeighUpdateFlags) :
    (neigh_update_key st k l ns f).idev = st.idev := by
  unfold neigh_update_key
  cases neigh_lookup st.neighbors k <;> rfl

theorem neigh_update_key_hostAddrs (st : NdiscState) (k : In6Addr)
    (l : Option (List Nat)) (ns : NudState) (f : NeighUpdateFlags) :
    (neigh_update_key st k l ns f).hostAddrs = st.hostAddrs := by
  unfold neigh_update_key
  cases neigh_lookup st.neighbors k <;> rfl

theorem ra_retrans_update_routers (st : NdiscState) (pkt : Packet) :
    (ra_retrans_update st pkt).1.routers = st.routers := by
  unfold ra_retrans_update
  dsimp only
  repeat' split
  all_goals rfl

theorem ra_retrans_update_cnf (st : NdiscState) (pkt : Packet) :
    (ra_retrans_update st pkt).1.idev.cnf = st.idev.cnf := by
  unfold ra_retrans_update
  dsimp only
  repeat' split
  all_goals rfl

theorem ra_retrans_update_hostAddrs (st : NdiscState) (pkt : Packet) :
    (ra_retrans_update st pkt).1.hostAddrs = st.hostAddrs := by
  unfold ra_retrans_update
  dsimp only
  repeat' split
  all_goals rfl

theorem ra_retrans_update_jiffies (st : NdiscState) (pkt : Packet) :
    (ra_retrans_update st pkt).1.jiffies = st.jiffies := by
  unfold ra_retrans_update
  dsimp only
  repeat' split
  all_goals rfl

theorem ra_reachable_update_routers (st : NdiscState) (pkt : Packet) :
    (ra_reachable_update st pkt).1.routers = st.routers := by
  unfold ra_reachable_update
  dsimp only
  repeat' split
  all_goals rfl

theorem ra_reachable_update_cnf (st : NdiscState) (pkt : Packet) :
    (ra_reachable_update st pkt).1.idev.cnf = st.idev.cnf := by
  unfold ra_reachable_update
  dsimp only
  repeat' split
  all_goals rfl

theorem ra_reachable_update_hostAddrs (st : NdiscState) (pkt : Packet) :
    (ra_reachable_update st pkt).1.hostAddrs = st.hostAddrs := by
  unfold ra_reachable_update
  dsimp only
  repeat' split
  all_goals rfl

theorem ra_reachable_update_jiffies (st : NdiscState) (pkt : Packet) :
    (ra_reachable_update st pkt).1.jiffies = st.jiffies := by
  unfold ra_reachable_update
  dsimp only
  repeat' split
  all_goals rfl

/- Facts about the router-list collaborators. -/

theorem rt6_get_updateFirst_same (f : RouterEntry → RouterEntry)
    (hf : ∀ r, (f r).addr = r.addr ∧ (f r).ifindex = r.ifindex) :
    ∀ (rts : List RouterEntry) (a : In6Addr) (i : Nat),
      rt6_get_dflt_router a i (updateFirstRouter f rts a i) =
        (rt6_get_dflt_router a i rts).map f := by
  intro rts
  induction rts with
  | nil => intro a i; rfl
  | cons r rest ih =>
    intro a i
    unfold updateFirstRouter rt6_get_dflt_router
    by_cases hm : (r.addr == a && r.ifindex == i) = true
    · rw [if_pos hm]
      have hfm : ((f r).addr == a && (f r).ifindex == i) = true := by
        rw [(hf r).1, (hf r).2]
        exact hm
      simp only [List.find?, hm, hfm]
      rfl
    · rw [if_neg hm]
      have hm' : (r.addr == a && r.ifindex == i) = false := by
        simp only [Bool.not_eq_true] at hm
        exact hm
      simp only [List.find?, hm']
      exact ih a i

theorem rt6_get_add_same (a : In6Addr) (i p : Nat) (rts : List RouterEntry) :
    rt6_get_dflt_router a i (rt6_add_dflt_router a i p rts) =
      some { addr := a, ifindex := i, pref := p, expires := 0,
             metric_hoplimit := none, metric_mtu := none } := by
  unfold rt6_get_dflt_router rt6_add_dflt_router
  simp [List.find?]

/- Facts about the option-processing phase of ndisc_router_discovery. -/

theorem ra_opts_phase_routers_no_rt (dev : NetDevice) (pkt : Packet)
    (ndopts : NdiscOptions) (st1 : NdiscState) :
    (ra_opts_phase dev pkt ndopts false st1).1.routers = st1.routers := by
  unfold ra_opts_phase
  dsimp only
  repeat' split
  all_goals
    simp_all [neigh_update_key_routers, neigh_ensure_routers]

theorem ra_opts_phase_rt_lookup (dev : NetDevice) (pkt : Packet)
    (ndopts : NdiscOptions) (rtHeld : Bool) (st1 : NdiscState) :
    rt6_get_dflt_router pkt.saddr dev.ifindex
        (ra_opts_phase dev pkt ndopts rtHeld st1).1.routers =
      rt6_get_dflt_router pkt.saddr dev.ifindex st1.routers ∨
    ∃ mtu : Nat,
      rt6_get_dflt_router pkt.saddr dev.ifindex
          (ra_opts_phase dev pkt ndopts rtHeld st1).1.routers =
        (rt6_get_dflt_router pkt.saddr dev.ifindex st1.routers).map
          (fun r => { r with metric_mtu := some mtu }) := by
  unfold ra_opts_phase
  dsimp only
  repeat' split
  all_goals
    try (left; simp [neigh_update_key_routers, neigh_ensure_routers]; done)
  all_goals
    right
    dsimp only
    simp only [neigh_update_key_routers, neigh_ensure_routers]
    apply Exists.intro
    apply rt6_get_updateFirst_same
    exact fun r => ⟨rfl, rfl⟩

theorem ra_opts_phase_accept_ra_off (dev : NetDevice) (pkt : Packet)
    (ndopts : NdiscOptions) (rtHeld : Bool) (st1 : NdiscState)
    (h : ipv6_accept_ra st1.idev = false) :
    (ra_opts_phase dev pkt ndopts rtHeld st1).1.routers = st1.routers ∧
    (ra_opts_phase dev pkt ndopts rtHeld st1).1.idev = st1.idev ∧
    (ra_opts_phase dev pkt ndopts rtHeld st1).2 = [] := by
  unfold ra_opts_phase
  dsimp only
  have hidev : (neigh_update_key (neigh_ensure st1 pkt.saddr) pkt.saddr
      (ndopts.nd_opts_src_lladdr.bind
        (fun o => ndisc_opt_addr_data o dev.addr_len dev.dev_type))
      NudState.stale
      { weak_override := true, override := true,
        override_isrouter := true, isrouter := true }).idev = st1.idev := by
    rw [neigh_update_key_idev, neigh_ensure_idev]
  split
  · exact ⟨neigh_ensure_routers _ _, neigh_ensure_idev _ _, rfl⟩
  · rw [if_pos (by rw [hidev, h]; rfl)]
    refine ⟨?_, hidev, rfl⟩
    rw [neigh_update_key_routers, neigh_ensure_routers]

/- Claim C4 (corrected). -/

def stRAoff : NdiscState :=
  { st0 with idev := { idev0 with cnf := { cnf0 with accept_ra := false } } }

def pktRAplain : Packet :=
  { hop_limit := 255, saddr := addrLL1, daddr := in6addr_linklocal_allnodes,
    icmp6_type := NDISC_ROUTER_ADVERTISEMENT, icmp6_code := 0,
    icmp6_rt_lifetime := 1800 }

/-- Counterexample to claim C4 as stated: an RA whose IPv6 source is
link-local, received on an interface with accept_ra disabled, still mutates
protocol state — ndisc_router_discovery creates (and updates to STALE) the
neighbour-cache entry for the RA's source address even though the interface
is not configured to accept RAs. -/
theorem c4_ra_acceptance_counterexample :
    (ndisc_router_discovery dev0 stRAoff pktRAplain).1.neighbors ≠ stRAoff.neighbors := by
  decide

/-- Claim C4 (amended): an RA whose IPv6 source address is not link-local is
dropped by ndisc_router_discovery with no state change and no effect; when
the source is link-local but the interface is not configured to accept RAs,
processing the RA changes no default-router entry and no interface
parameter and emits no notification — but the neighbour-cache entry for the
RA's source address may still be created and updated. -/
theorem c4_ra_acceptance_amended (dev : NetDevice) (st : NdiscState) (pkt : Packet) :
    (ipv6_addr_linklocal pkt.saddr = false → ndisc_router_discovery dev st pkt = (st, [])) ∧
    (ipv6_accept_ra st.idev = false →
      (ndisc_router_discovery dev st pkt).1.routers = st.routers ∧
      (ndisc_router_discovery dev st pkt).1.idev = st.idev ∧
      (ndisc_router_discovery dev st pkt).2 = []) := by
  constructor
  · intro h
    unfold ndisc_router_discovery
    rw [h]
    rfl
  · intro h
    unfold ndisc_router_discovery
    dsimp only
    split
    · exact ⟨rfl, rfl, rfl⟩
    split
    · exact ⟨rfl, rfl, rfl⟩
    split
    · exact ⟨rfl, rfl, rfl⟩
    split
    · exact ⟨rfl, rfl, rfl⟩
    next ndopts heq =>
      simp only [h, Bool.false_and, if_false]
      obtain ⟨h1, h2, h3⟩ := ra_opts_phase_accept_ra_off dev pkt ndopts false st h
      exact ⟨h1, h2, by simp [h3]⟩

def pktRAnonLL : Packet :=
  { pktRAplain with saddr := addrG1 }

theorem c4_ra_acceptance_amended_witness :
    (ndisc_router_discovery dev0 st0 pktRAnonLL = (st0, [])) ∧
    ((ndisc_router_discovery dev0 stRAoff pktRAplain).1.routers = stRAoff.routers ∧
     (ndisc_router_discovery dev0 stRAoff pktRAplain).1.idev = stRAoff.idev ∧
     (ndisc_router_discovery dev0 stRAoff pktRAplain).2 = []) :=
  ⟨(c4_ra_acceptance_amended dev0 st0 pktRAnonLL).1 (by decide),
   (c4_ra_acceptance_amended dev0 stRAoff pktRAplain).2 (by decide)⟩

/- Claim C5: lemmas about the default-router region. -/

theorem neigh_set_router_routers (st : NdiscState) (k : In6Addr) :
    (neigh_set_router st k).routers = st.routers := rfl

theorem neigh_set_router_jiffies (st : NdiscState) (k : In6Addr) :
    (neigh_set_router st k).jiffies = st.jiffies := rfl

theorem ra_defrtr_gate_off (dev : NetDevice) (st : NdiscState) (pkt : Packet)
    (h : st.idev.cnf.accept_ra_defrtr = false) :
    ra_defrtr dev st pkt = (st, false) := by
  unfold ra_defrtr
  rw [h]
  rfl

theorem ra_defrtr_del (dev : NetDevice) (st : NdiscState) (pkt : Packet)
    (hdef : st.idev.cnf.accept_ra_defrtr = true)
    (hchk : ipv6_chk_addr_any st pkt.saddr = false)
    (hrt : (rt6_get_dflt_router pkt.saddr dev.ifindex st.routers).isSome = true)
    (hlt : pkt.icmp6_rt_lifetime = 0) :
    (ra_defrtr dev st pkt).1.routers =
      eraseFirstRouter st.routers pkt.saddr dev.ifindex ∧
    (ra_defrtr dev st pkt).2 = false := by
  obtain ⟨r, hr⟩ := Option.isSome_iff_exists.mp hrt
  unfold ra_defrtr
  dsimp only
  simp only [hdef, hchk, hr, hlt, Bool.not_true, Bool.false_eq_true, if_false,
    Nat.zero_eq, beq_self_eq_true, if_true, if_pos]
  split
  · simp [neigh_ensure_routers]
  · simp [neigh_ensure_routers]

theorem rt6_get_update_pref (p : Nat) (rts : List RouterEntry) (a : In6Addr) (i : Nat) :
    rt6_get_dflt_router a i
        (updateFirstRouter (fun r => { r with pref := p }) rts a i) =
      (rt6_get_dflt_router a i rts).map (fun r => { r with pref := p }) :=
  rt6_get_updateFirst_same (fun r => { r with pref := p }) (fun _ => ⟨rfl, rfl⟩) rts a i

theorem rt6_get_update_expires (e : Nat) (rts : List RouterEntry) (a : In6Addr) (i : Nat) :
    rt6_get_dflt_router a i
        (updateFirstRouter (fun r => { r with expires := e }) rts a i) =
      (rt6_get_dflt_router a i rts).map (fun r => { r with expires := e }) :=
  rt6_get_updateFirst_same (fun r => { r with expires := e }) (fun _ => ⟨rfl, rfl⟩) rts a i

theorem rt6_get_update_hoplimit (h : Nat) (rts : List RouterEntry) (a : In6Addr) (i : Nat) :
    rt6_get_dflt_router a i
        (updateFirstRouter (fun r => { r with metric_hoplimit := some h }) rts a i) =
      (rt6_get_dflt_router a i rts).map (fun r => { r with metric_hoplimit := some h }) :=
  rt6_get_updateFirst_same (fun r => { r with metric_hoplimit := some h })
    (fun _ => ⟨rfl, rfl⟩) rts a i

theorem ra_defrtr_alive (dev : NetDevice) (st : NdiscState) (pkt : Packet)
    (hdef : st.idev.cnf.accept_ra_defrtr = true)
    (hchk : ipv6_chk_addr_any st pkt.saddr = false)
    (hlt : pkt.icmp6_rt_lifetime ≠ 0) :
    (ra_defrtr dev st pkt).2 = true ∧
    ∃ r', rt6_get_dflt_router pkt.saddr dev.ifindex (ra_defrtr dev st pkt).1.routers = some r' ∧
      r'.pref = (if pkt.icmp6_router_pref == 2 || !st.idev.cnf.accept_ra_rtr_pref
                 then 0 else pkt.icmp6_router_pref) ∧
      r'.expires = st.jiffies + HZ * pkt.icmp6_rt_lifetime := by
  have hlt1 : (pkt.icmp6_rt_lifetime == 0) = false := by
    simp [hlt]
  have hlt2 : (pkt.icmp6_rt_lifetime != 0) = true := by
    simp [hlt]
  unfold ra_defrtr
  dsimp only
  simp only [hdef, hchk, Bool.not_true, Bool.false_eq_true, if_false, hlt1, hlt2, if_true,
    neigh_ensure_routers, neigh_ensure_jiffies, neigh_set_router_routers,
    neigh_set_router_jiffies]
  cases hr : rt6_get_dflt_router pkt.saddr dev.ifindex st.routers with
  | some r =>
    simp only [hr]
    split
    · constructor
      · rfl
      · rw [if_pos (by trivial)]
        dsimp only
        rw [rt6_get_update_hoplimit, rt6_get_update_expires, rt6_get_update_pref, hr]
        exact ⟨_, rfl, rfl, rfl⟩
    · constructor
      · rfl
      · rw [rt6_get_update_expires, rt6_get_update_pref, hr]
        exact ⟨_, rfl, rfl, rfl⟩
  | none =>
    simp only [hr]
    split
    · constructor
      · rfl
      · rw [if_pos (by trivial)]
        dsimp only
        rw [rt6_get_update_hoplimit, rt6_get_update_expires, rt6_get_add_same]
        exact ⟨_, rfl, rfl, rfl⟩
    · constructor
      · rfl
      · rw [rt6_get_update_expires, rt6_get_add_same]
        exact ⟨_, rfl, rfl, rfl⟩

theorem ra_linkparms_idev_cnf (dev : NetDevice) (pkt : Packet) (idev : Inet6Dev)
    (hcc : mtk_is_ccmni dev.name = false) :
    (ra_linkparms_idev dev pkt idev).cnf = idev.cnf := by
  unfold ra_linkparms_idev
  dsimp only
  simp only [hcc, Bool.false_eq_true, if_false]
  split <;> rfl

theorem ra_linkparms_idev_cc (dev : NetDevice) (pkt : Packet) (idev : Inet6Dev)
    (hcc : mtk_is_ccmni dev.name = true) :
    (ra_linkparms_idev dev pkt idev).cnf.accept_ra_defrtr = false := by
  unfold ra_linkparms_idev
  dsimp only
  simp only [hcc, if_true]

theorem ra_linkparms_del (dev : NetDevice) (st : NdiscState) (pkt : Packet)
    (hcc : mtk_is_ccmni dev.name = false)
    (hdef : st.idev.cnf.accept_ra_defrtr = true)
    (hchk : ipv6_chk_addr_any st pkt.saddr = false)
    (hrt : (rt6_get_dflt_router pkt.saddr dev.ifindex st.routers).isSome = true)
    (hlt : pkt.icmp6_rt_lifetime = 0) :
    (ra_linkparms dev st pkt).1.routers =
      eraseFirstRouter st.routers pkt.saddr dev.ifindex ∧
    (ra_linkparms dev st pkt).2.2 = false := by
  have hdef1 : ({ st with idev := ra_linkparms_idev dev pkt st.idev } :
      NdiscState).idev.cnf.accept_ra_defrtr = true := by
    show (ra_linkparms_idev dev pkt st.idev).cnf.accept_ra_defrtr = true
    rw [ra_linkparms_idev_cnf dev pkt st.idev hcc]
    exact hdef
  obtain ⟨hA, hB⟩ := ra_defrtr_del dev
    { st with idev := ra_linkparms_idev dev pkt st.idev } pkt hdef1 hchk hrt hlt
  unfold ra_linkparms
  dsimp only
  constructor
  · rw [ra_reachable_update_routers, ra_retrans_update_routers, hA]
  · exact hB

theorem ra_linkparms_alive (dev : NetDevice) (st : NdiscState) (pkt : Packet)
    (hcc : mtk_is_ccmni dev.name = false)
    (hdef : st.idev.cnf.accept_ra_defrtr = true)
    (hchk : ipv6_chk_addr_any st pkt.saddr = false)
    (hlt : pkt.icmp6_rt_lifetime ≠ 0) :
    (ra_linkparms dev st pkt).2.2 = true ∧
    ∃ r', rt6_get_dflt_router pkt.saddr dev.ifindex
            (ra_linkparms dev st pkt).1.routers = some r' ∧
      r'.pref = (if pkt.icmp6_router_pref == 2 || !st.idev.cnf.accept_ra_rtr_pref
                 then 0 else pkt.icmp6_router_pref) ∧
      r'.expires = st.jiffies + HZ * pkt.icmp6_rt_lifetime := by
  have hdef1 : ({ st with idev := ra_linkparms_idev dev pkt st.idev } :
      NdiscState).idev.cnf.accept_ra_defrtr = true := by
    show (ra_linkparms_idev dev pkt st.idev).cnf.accept_ra_defrtr = true
    rw [ra_linkparms_idev_cnf dev pkt st.idev hcc]
    exact hdef
  obtain ⟨hA, r', h1, h2, h3⟩ := ra_defrtr_alive dev
    { st with idev := ra_linkparms_idev dev pkt st.idev } pkt hdef1 hchk hlt
  dsimp only at h2
  rw [ra_linkparms_idev_cnf dev pkt st.idev hcc] at h2
  unfold ra_linkparms
  dsimp only
  refine ⟨hA, r', ?_, h2, h3⟩
  rw [ra_reachable_update_routers, ra_retrans_update_routers, h1]

/-- Claim C5: for an accepted RA (link-local source, ordinary node type,
parsable options, accept_ra enabled, default-router processing enabled —
which also requires the interface to escape the vendor ccmni check — and a
source that is not a local address): when a default-router entry keyed by
{source, interface} exists and the advertised router lifetime is 0, that
entry is removed; when the lifetime is positive — whether or not an entry
already exists — processing leaves a default-router entry for
{source, interface} whose preference follows RFC 4191 with the reserved
value 0b10 remapped to MEDIUM (0) and forced to MEDIUM when
accept_ra_rtr_pref is disabled, and whose expiry is now + lifetime seconds
(jiffies + HZ·lifetime). -/
theorem c5_ra_default_router (dev : NetDevice) (st : NdiscState) (pkt : Packet)
    (nd : NdiscOptions)
    (hll : ipv6_addr_linklocal pkt.saddr = true)
    (hshort : pkt.len_short = false)
    (hnode : pkt.ndisc_nodetype = NodeType.unspec)
    (hparse : ndisc_parse_options pkt.opts = some nd)
    (hacc : ipv6_accept_ra st.idev = true)
    (hcc : mtk_is_ccmni dev.name = false)
    (hdef : st.idev.cnf.accept_ra_defrtr = true)
    (hchk : ipv6_chk_addr_any st pkt.saddr = false) :
    ((rt6_get_dflt_router pkt.saddr dev.ifindex st.routers).isSome = true →
      pkt.icmp6_rt_lifetime = 0 →
      (ndisc_router_discovery dev st pkt).1.routers =
        eraseFirstRouter st.routers pkt.saddr dev.ifindex) ∧
    (pkt.icmp6_rt_lifetime ≠ 0 →
      ∃ r', rt6_get_dflt_router pkt.saddr dev.ifindex
              (ndisc_router_discovery dev st pkt).1.routers = some r' ∧
        r'.pref = (if pkt.icmp6_router_pref == 2 || !st.idev.cnf.accept_ra_rtr_pref
                   then 0 else pkt.icmp6_router_pref) ∧
        r'.expires = st.jiffies + HZ * pkt.icmp6_rt_lifetime) := by
  have hnH : (pkt.ndisc_nodetype == NodeType.host) = false := by
    rw [hnode]; rfl
  have hnN : (pkt.ndisc_nodetype == NodeType.nodefault) = false := by
    rw [hnode]; rfl
  have hred : ndisc_router_discovery dev st pkt =
      ((ra_opts_phase dev pkt nd (ra_linkparms dev st pkt).2.2
          (ra_linkparms dev st pkt).1).1,
       (ra_linkparms dev st pkt).2.1 ++
         (ra_opts_phase dev pkt nd (ra_linkparms dev st pkt).2.2
           (ra_linkparms dev st pkt).1).2) := by
    unfold ndisc_router_discovery
    simp only [hll, hshort, hnH, hnN, hparse, hacc, Bool.not_true, Bool.not_false,
      Bool.false_eq_true, if_false, Bool.true_and, Bool.and_self, if_true]
  rw [hred]
  dsimp only
  constructor
  · intro hrt hlt
    obtain ⟨hA, hB⟩ := ra_linkparms_del dev st pkt hcc hdef hchk hrt hlt
    rw [hB, ra_opts_phase_routers_no_rt, hA]
  · intro hlt
    obtain ⟨hH, r', h1, h2, h3⟩ := ra_linkparms_alive dev st pkt hcc hdef hchk hlt
    rcases ra_opts_phase_rt_lookup dev pkt nd ((ra_linkparms dev st pkt).2.2)
        ((ra_linkparms dev st pkt).1) with hc | ⟨m, hc⟩
    · exact ⟨r', by rw [hc, h1], h2, h3⟩
    · refine ⟨{ r' with metric_mtu := some m }, ?_, h2, h3⟩
      rw [hc, h1]
      rfl

def rtr0 : RouterEntry :=
  { addr := addrLL1, ifindex := 2, pref := 0, expires := 9000,
    metric_hoplimit := none, metric_mtu := none }

def stWithRtr : NdiscState := { st0 with routers := [rtr0] }

def pktRAdel : Packet := { pktRAplain with icmp6_rt_lifetime := 0 }

theorem c5_ra_default_router_witness :
    ((ndisc_router_discovery dev0 stWithRtr pktRAdel).1.routers =
       eraseFirstRouter stWithRtr.routers pktRAdel.saddr dev0.ifindex) ∧
    (∃ r', rt6_get_dflt_router pktRAplain.saddr dev0.ifindex
             (ndisc_router_discovery dev0 st0 pktRAplain).1.routers = some r' ∧
       r'.pref = (if pktRAplain.icmp6_router_pref == 2 ||
                     !st0.idev.cnf.accept_ra_rtr_pref
                  then 0 else pktRAplain.icmp6_router_pref) ∧
       r'.expires = st0.jiffies + HZ * pktRAplain.icmp6_rt_lifetime) :=
  ⟨(c5_ra_default_router dev0 stWithRtr pktRAdel {} (by decide) (by decide) (by decide)
      (by decide) (by decide) (by decide) (by decide) (by decide)).1
      (by decide) (by decide),
   (c5_ra_default_router dev0 st0 pktRAplain {} (by decide) (by decide) (by decide)
      (by decide) (by decide) (by decide) (by decide) (by decide)).2
      (by decide)⟩

/- Claim C10. -/

theorem ra_opts_phase_cnf_defrtr (dev : NetDevice) (pkt : Packet)
    (ndopts : NdiscOptions) (rtHeld : Bool) (st1 : NdiscState) :
    (ra_opts_phase dev pkt ndopts rtHeld st1).1.idev.cnf.accept_ra_defrtr =
      st1.idev.cnf.accept_ra_defrtr := by
  unfold ra_opts_phase
  dsimp only
  repeat' split
  all_goals simp [neigh_update_key_idev, neigh_ensure_idev]

theorem ra_linkparms_cc (dev : NetDevice) (st : NdiscState) (pkt : Packet)
    (hcc : mtk_is_ccmni dev.name = true) :
    (ra_linkparms dev st pkt).1.idev.cnf.accept_ra_defrtr = false ∧
    (ra_linkparms dev st pkt).1.routers = st.routers ∧
    (ra_linkparms dev st pkt).2.2 = false := by
  have hoff : ({ st with idev := ra_linkparms_idev dev pkt st.idev } :
      NdiscState).idev.cnf.accept_ra_defrtr = false :=
    ra_linkparms_idev_cc dev pkt st.idev hcc
  unfold ra_linkparms
  dsimp only
  rw [ra_defrtr_gate_off dev _ pkt hoff]
  dsimp only
  refine ⟨?_, ?_, rfl⟩
  · rw [ra_reachable_update_cnf, ra_retrans_update_cnf]
    exact hoff
  · rw [ra_reachable_update_routers, ra_retrans_update_routers]

/-- Claim C10: for an RA processed on an interface whose name begins with
the two characters "cc" (the vendor check strncmp(dev->name, "ccmni", 2)
compares only two characters) and that reaches the link-parameter phase
(link-local source, not short, ordinary node type, parsable options,
accept_ra enabled), the handler clears that interface's accept_ra_defrtr
configuration before default-router processing — the disable persists in
the interface state for subsequent RAs — and no default-router entry is ever
installed: the router list is unchanged. -/
theorem c10_ccmni_defrtr_disable (dev : NetDevice) (st : NdiscState) (pkt : Packet)
    (nd : NdiscOptions)
    (hcc : mtk_is_ccmni dev.name = true)
    (hll : ipv6_addr_linklocal pkt.saddr = true)
    (hshort : pkt.len_short = false)
    (hnode : pkt.ndisc_nodetype = NodeType.unspec)
    (hparse : ndisc_parse_options pkt.opts = some nd)
    (hacc : ipv6_accept_ra st.idev = true) :
    (ndisc_router_discovery dev st pkt).1.idev.cnf.accept_ra_defrtr = false ∧
    (ndisc_router_discovery dev st pkt).1.routers = st.routers := by
  have hnH : (pkt.ndisc_nodetype == NodeType.host) = false := by
    rw [hnode]; rfl
  have hnN : (pkt.ndisc_nodetype == NodeType.nodefault) = false := by
    rw [hnode]; rfl
  have hred : ndisc_router_discovery dev st pkt =
      ((ra_opts_phase dev pkt nd (ra_linkparms dev st pkt).2.2
          (ra_linkparms dev st pkt).1).1,
       (ra_linkparms dev st pkt).2.1 ++
         (ra_opts_phase dev pkt nd (ra_linkparms dev st pkt).2.2
           (ra_linkparms dev st pkt).1).2) := by
    unfold ndisc_router_discovery
    simp only [hll, hshort, hnH, hnN, hparse, hacc, Bool.not_true, Bool.not_false,
      Bool.false_eq_true, if_false, Bool.true_and, Bool.and_self, if_true]
  rw [hred]
  dsimp only
  obtain ⟨h1, h2, h3⟩ := ra_linkparms_cc dev st pkt hcc
  constructor
  · rw [ra_opts_phase_cnf_defrtr]
    exact h1
  · rw [h3, ra_opts_phase_routers_no_rt, h2]

theorem c10_ccmni_defrtr_disable_witness :
    (ndisc_router_discovery devCc st0 pktRAplain).1.idev.cnf.accept_ra_defrtr = false ∧
    (ndisc_router_discovery devCc st0 pktRAplain).1.routers = st0.routers :=
  c10_ccmni_defrtr_disable devCc st0 pktRAplain {} (by decide) (by decide) (by decide)
    (by decide) (by decide) (by decide)

/- Claim C6. -/

/-- Claim C6: a valid received Neighbour Advertisement (correct length,
non-multicast target, not a solicited NA to a multicast destination,
parsable options, well-formed target link-layer option) whose target is not
a local address but matches an existing non-FAILED neighbour-cache entry,
and that is not our own proxy NA, updates that entry through the generic
cache update with new state REACHABLE iff the solicited flag is set and
STALE otherwise, flags OVERRIDE iff the override bit, ISROUTER iff the
router bit, and override-isrouter always forced; and exactly when the
entry's ROUTER flag thereby goes from set to clear, removal of the
default-router entry keyed by the advertisement's source and the interface
is requested. -/
theorem c6_na_cache_update (dev : NetDevice) (st : NdiscState) (pkt : Packet)
    (nd : NdiscOptions) (n : NeighEntry) (lladdr : Option (List Nat))
    (hshort : pkt.len_short = false)
    (hmt : ipv6_addr_is_multicast pkt.target = false)
    (hsm : (ipv6_addr_is_multicast pkt.daddr && pkt.icmp6_solicited) = false)
    (hparse : ndisc_parse_options pkt.opts = some nd)
    (hla : ndisc_deopt_lladdr nd.nd_opts_tgt_lladdr dev = some lladdr)
    (hifp : ipv6_get_ifaddr st.ifaddrs pkt.target = none)
    (hn : neigh_lookup st.neighbors pkt.target = some n)
    (hfail : (n.nud_state == NudState.failed) = false)
    (hproxy : na_own_proxy_check st dev pkt.target lladdr = false) :
    ndisc_recv_na dev st pkt =
      ({ st with
           neighbors := neigh_replace st.neighbors
             (neigh_update_entry n lladdr
               (if pkt.icmp6_solicited then NudState.reachable else NudState.stale)
               { weak_override := true, override := pkt.icmp6_override,
                 override_isrouter := true, isrouter := pkt.icmp6_router })
           routers := if n.flags_router && !pkt.icmp6_router then
               eraseFirstRouter st.routers pkt.saddr dev.ifindex
             else st.routers }, []) := by
  unfold ndisc_recv_na
  simp only [hshort, hmt, hsm, hparse, hla, hifp, hn, hfail, hproxy,
    Bool.false_eq_true, if_false]
  have hfr : (neigh_update_entry n lladdr
      (if pkt.icmp6_solicited then NudState.reachable else NudState.stale)
      { weak_override := true, override := pkt.icmp6_override,
        override_isrouter := true, isrouter := pkt.icmp6_router }).flags_router =
      pkt.icmp6_router := by
    unfold neigh_update_entry
    rfl
  rw [hfr]
  split
  · rfl
  · rfl

def neighNA : NeighEntry :=
  { key := addrG1, nud_state := NudState.stale, flags_router := true,
    lladdr := some [1, 2, 3, 4, 5, 6] }

def stNA : NdiscState := { st0 with neighbors := [neighNA], routers := [rtr0] }

def pktNA : Packet :=
  { hop_limit := 255, saddr := addrLL1, daddr := addrG1,
    icmp6_type := NDISC_NEIGHBOUR_ADVERTISEMENT, icmp6_code := 0,
    icmp6_router := false, icmp6_solicited := true, icmp6_override := true,
    target := addrG1 }

theorem c6_na_cache_update_witness :
    ndisc_recv_na dev0 stNA pktNA =
      ({ stNA with
           neighbors := neigh_replace stNA.neighbors
             (neigh_update_entry neighNA none
               (if pktNA.icmp6_solicited then NudState.reachable else NudState.stale)
               { weak_override := true, override := pktNA.icmp6_override,
                 override_isrouter := true, isrouter := pktNA.icmp6_router })
           routers := if neighNA.flags_router && !pktNA.icmp6_router then
               eraseFirstRouter stNA.routers pktNA.saddr dev0.ifindex
             else stNA.routers }, []) :=
  c6_na_cache_update dev0 stNA pktNA {} neighNA none (by decide) (by decide)
    (by decide) (by decide) (by decide) (by decide) (by decide) (by decide)
    (by decide)

/- Claim C7. -/

/-- Claim C7: every NS, NA, RS, or Redirect message emitted by the NDP core
(all built over the per-namespace control socket created by ndisc_net_init)
carries IPv6 hop-limit exactly 255 and ICMPv6 code exactly 0. -/
theorem c7_emit_hoplimit_code :
    (∀ dev ifaddrs force_tllao saddr_sel daddr solicited_addr
       router solicited ov inc w,
       ndisc_send_na ndisc_net_init dev ifaddrs force_tllao saddr_sel
           daddr solicited_addr router solicited ov inc = some w →
       w.hop_limit = 255 ∧ w.body.icmp6_code = 0) ∧
    (∀ dev lladdr_src solicit daddr saddr w,
       ndisc_send_ns ndisc_net_init dev lladdr_src solicit daddr saddr = some w →
       w.hop_limit = 255 ∧ w.body.icmp6_code = 0) ∧
    (∀ dev ifp saddr daddr,
       (ndisc_send_rs ndisc_net_init dev ifp saddr daddr).hop_limit = 255 ∧
       (ndisc_send_rs ndisc_net_init dev ifp saddr daddr).body.icmp6_code = 0) ∧
    (∀ dev lladdr_src psaddr pdaddr target rg ro nf ha orig w,
       ndisc_send_redirect ndisc_net_init dev lladdr_src psaddr pdaddr target
           rg ro nf ha orig = some w →
       w.hop_limit = 255 ∧ w.body.icmp6_code = 0) := by
  refine ⟨?_, ?_, ?_, ?_⟩
  · intro dev ifaddrs force_tllao saddr_sel daddr solicited_addr
      router solicited ov inc w h
    unfold ndisc_send_na ndisc_send_skb ndisc_net_init at h
    repeat' split at h
    all_goals simp_all
    all_goals subst h
    all_goals exact ⟨rfl, rfl⟩
  · intro dev lladdr_src solicit daddr saddr w h
    unfold ndisc_send_ns ndisc_send_skb ndisc_net_init at h
    cases saddr <;> cases lladdr_src <;>
      simp only [Option.some.injEq, reduceCtorEq] at h
    all_goals first
      | exact absurd h (fun hc => hc)
      | (subst h; exact ⟨rfl, rfl⟩)
  · intro dev ifp saddr daddr
    unfold ndisc_send_rs ndisc_send_skb ndisc_net_init
    exact ⟨rfl, rfl⟩
  · intro dev lladdr_src psaddr pdaddr target rg ro nf ha orig w h
    unfold ndisc_send_redirect ndisc_send_skb ndisc_net_init at h
    repeat' split at h
    all_goals simp_all
    all_goals subst h
    all_goals exact ⟨rfl, rfl⟩

def wp_dflt : WirePacket :=
  { hop_limit := 0, saddr := [], daddr := [], body := { icmp6_type := 0 } }

def wpNA : WirePacket :=
  (ndisc_send_na ndisc_net_init dev0 [] false (some addrLL1) addrG1 addrG1
    false true true true).getD wp_dflt

def wpNS : WirePacket :=
  (ndisc_send_ns ndisc_net_init dev0 (some addrLL1) addrG1 addrG1 none).getD wp_dflt

def wpRS : WirePacket := ndisc_send_rs ndisc_net_init dev0 none addrLL1 addrG1

def wpRD : WirePacket :=
  (ndisc_send_redirect ndisc_net_init dev0 (some addrLL1) addrG1 addrG1 addrG1
    false true true (some [1, 2, 3, 4, 5, 6]) (List.replicate 40 0)).getD wp_dflt

theorem c7_emit_hoplimit_code_witness :
    (wpNA.hop_limit = 255 ∧ wpNA.body.icmp6_code = 0) ∧
    (wpNS.hop_limit = 255 ∧ wpNS.body.icmp6_code = 0) ∧
    (wpRS.hop_limit = 255 ∧ wpRS.body.icmp6_code = 0) ∧
    (wpRD.hop_limit = 255 ∧ wpRD.body.icmp6_code = 0) :=
  ⟨c7_emit_hoplimit_code.1 dev0 [] false (some addrLL1) addrG1 addrG1
     false true true true wpNA (by decide),
   c7_emit_hoplimit_code.2.1 dev0 (some addrLL1) addrG1 addrG1 none wpNS
     (by decide),
   c7_emit_hoplimit_code.2.2.1 dev0 none addrLL1 addrG1,
   c7_emit_hoplimit_code.2.2.2 dev0 (some addrLL1) addrG1 addrG1 addrG1
     false true true (some [1, 2, 3, 4, 5, 6]) (List.replicate 40 0) wpRD
     (by decide)⟩
